import Mathlib

/-!
# Verification of `ql-docker.py` (clawcloud-auto-login)

Shallow embedding of the single Python source file `ql-docker.py`.

The script drives a Selenium browser through a fixed login walk and reports
the outcome over a Telegram webhook.  All interaction with the outside world
(filesystem, browser, clock, TOTP library) is modelled by a `World` record
supplying the outcome of each external call; the observable behaviour of a
run (texts passed to `send_tg_message`, screenshot paths passed to
`driver.save_screenshot`, keystrokes sent to form fields, the step events of
the login walk, and the returned boolean) is accumulated in a `RunState`.

Python exceptions are modelled with `Except String`: an external call that
may raise is a `World` field of type `Except String Unit`, and Python
`try/except` blocks become matches on those values.  The only exception a
caller of `run_login` can see is the `IndexError` raised by `mask_account`
(line 30 of the source, reached from line 98 before any `try` is entered);
it is modelled by `mask_account` returning `none`.

Machine-independent modelling choices:
* `os.environ.get(k, "").strip()` is `getenvStrip` over an `Option String`
  (absent variable = `none`).
* Python's substring test `pat in s` is `strIn pat s`, infix of character
  lists; `str.lower()` is `pyLower` and `str.strip()` is `pyStrip`, both
  characterwise over the character list of the string.
* `pyotp.TOTP(secret).now()` is an external library call; its return value
  is the `World` field `totpToken`.
-/

set_option maxHeartbeats 4000000

namespace ClawCloud

/-- Python substring test `pat in s`, as infix of the character lists. -/
def strIn (pat s : String) : Bool := decide (pat.toList <:+: s.toList)

/-- Drop leading whitespace characters. -/
def dropLeadingWs : List Char → List Char
  | [] => []
  | c :: cs => if c.isWhitespace then dropLeadingWs cs else c :: cs

/-- Python `str.strip()`: remove leading and trailing whitespace. -/
def pyStrip (s : String) : String :=
  String.mk ((dropLeadingWs (dropLeadingWs s.toList).reverse).reverse)

/-- Python `str.lower()`, characterwise. -/
def pyLower (s : String) : String := String.mk (s.toList.map Char.toLower)

/-- `os.environ.get(key, "").strip()`; an absent variable is `none`. -/
def getenvStrip (v : Option String) : String := pyStrip (v.getD "")

/-- Lines 24–31: `mask_account`.  `account.split("@", 1)` takes the part
before the first `@` and the rest after it; `name[0]` raises `IndexError`
when the local part is empty, modelled by `none`. -/
def mask_account (account : String) : Option String :=
  if account = "" ∨ '@' ∉ account.toList then some "unknown"
  else
    let name := account.toList.takeWhile (fun c => c != '@')
    let domain := account.toList.drop (name.length + 1)
    if name.length ≤ 3 then
      match name with
      | [] => none   -- Python `name[0]` raises IndexError here
      | c :: _ => some (String.mk ([c] ++ "***@".toList ++ domain))
    else some (String.mk (name.take 3 ++ "***@".toList ++ domain))

/-- Lines 36–41: the guard of `send_tg_message`.  Returns `true` exactly when
the webhook call is attempted, i.e. when both `TG_BOT_TOKEN` and
`TG_CHAT_ID` strip to a non-empty string; otherwise the function returns
early and the webhook is not attempted. -/
def send_tg_attempts (bot_token_var chat_id_var : Option String) : Bool :=
  let bot_token := getenvStrip bot_token_var
  let chat_id := getenvStrip chat_id_var
  if bot_token = "" ∨ chat_id = "" then false else true

/-- The `for path in candidates: if os.path.exists(path): return path` loop
shared by `find_chrome` and `find_chromedriver`. -/
def findFirstExisting (ex : String → Bool) : List String → Option String
  | [] => none
  | p :: rest => if ex p then some p else findFirstExisting ex rest

/-- Lines 63–68: candidate browser binaries, in source order. -/
def chrome_candidates : List String :=
  ["/usr/bin/chromium", "/usr/bin/chromium-browser",
   "/usr/bin/google-chrome", "/usr/bin/google-chrome-stable"]

/-- Lines 79–82: candidate chromedriver binaries, in source order. -/
def chromedriver_candidates : List String :=
  ["/usr/bin/chromedriver", "/usr/local/bin/chromedriver"]

/-- Lines 61–74: `find_chrome`, parametrised by `os.path.exists`. -/
def find_chrome (ex : String → Bool) : Option String :=
  findFirstExisting ex chrome_candidates

/-- Lines 77–88: `find_chromedriver`, parametrised by `os.path.exists`. -/
def find_chromedriver (ex : String → Bool) : Option String :=
  findFirstExisting ex chromedriver_candidates

/-- Lines 332–345: the success heuristic, as the source writes it — a
mutable `is_success` starting `False`, set `True` by any of the three
checks. -/
def classify_success (page_source final_url : String) : Bool :=
  let page_text := pyLower page_source
  let is_success := false
  let is_success :=
    if strIn "app launchpad" page_text || strIn "devbox" page_text then true
    else is_success
  let is_success :=
    if strIn "private-team" final_url || strIn "console" final_url then true
    else is_success
  let is_success :=
    if !strIn "signin" final_url && !strIn "github.com" final_url then true
    else is_success
  is_success

/-! ## Notification texts (the f-strings of the source, verbatim) -/

/-- `👤 账号：{masked_user}\n` -/
def acctLine (m : String) : String := "👤 账号：" ++ m ++ "\n"

/-- `🕒 时间：{now_time}\n` -/
def timeLine (t : String) : String := "🕒 时间：" ++ t ++ "\n"

/-- Lines 101–106. -/
def msg_missing_creds (m t : String) : String :=
  "❌ ClawCloud 登录失败\n\n" ++ acctLine m ++ timeLine t ++
    "⚠️ 原因：缺少 GH_USERNAME 或 GH_PASSWORD"

/-- Lines 122–127. -/
def msg_no_chrome (m t : String) : String :=
  "❌ ClawCloud 登录失败\n\n" ++ acctLine m ++ timeLine t ++
    "⚠️ 原因：未找到 Chromium 可执行文件"

/-- Lines 221–226. -/
def msg_2fa_missing (m t : String) : String :=
  "🚨 ClawCloud 登录中断（致命）\n\n" ++ acctLine m ++ timeLine t ++
    "❌ 检测到 2FA 但未配置 GH_2FA_SECRET"

/-- Lines 294–299, with `e` the caught exception text. -/
def msg_2fa_fail (m t e : String) : String :=
  "❌ ClawCloud 登录失败\n\n" ++ acctLine m ++ timeLine t ++
    "⚠️ 原因：2FA 验证码填写失败\n" ++ e

/-- Lines 348–354. -/
def msg_success (m t url : String) : String :=
  "🎉 ClawCloud 登录成功\n\n" ++ acctLine m ++ timeLine t ++
    "🌐 控制台：\n" ++ url

/-- Lines 359–365. -/
def msg_classified_fail (m t : String) : String :=
  "❌ ClawCloud 登录失败\n\n" ++ acctLine m ++ timeLine t ++
    "⚠️ 原因：GitHub 登录或 2FA 未通过\n\n" ++
    "📸 已生成调试截图：/ql/data/scripts/clawcloud_result.png"

/-- Lines 371–376, with `e` the caught exception text. -/
def msg_exception (m t e : String) : String :=
  "❌ ClawCloud 登录异常\n\n" ++ acctLine m ++ timeLine t ++
    "⚠️ 错误：" ++ e

/-! ## World, state and events -/

/-- The six labelled steps of the login walk. -/
inductive StepEvent where
  | navigate | clickOAuth | fillCreds | handle2FA | handleConsent | verify
deriving DecidableEq, Repr

/-- A keystroke sent to the `app_totp` field after it is cleared:
either a text character (`totp_field.send_keys(char)`, line 248) or the
Return key (`totp_field.send_keys(Keys.RETURN)`, line 278). -/
inductive TotpKey where
  | ch (c : Char) | ret
deriving DecidableEq, Repr

/-- How the 2FA form ends up being submitted (lines 254–289): a submit
button found by one of the CSS selectors; the Return key sent to the
`app_totp` field; the JavaScript `form.submit()` fallback; or nothing
(every attempt raised and was swallowed). -/
inductive SubmitOutcome where
  | button | enter | js | silent
deriving DecidableEq, Repr

/-- Outcomes of the external calls made by `run_login`, plus the values the
environment hands back (URLs, page source, clock, TOTP token).  A field of
type `Except String Unit` is a Python call that may raise; the `String` is
`str(e)` of the raised exception. -/
structure World where
  /-- `os.path.exists` -/
  pathExists : String → Bool
  /-- `datetime.now().strftime("%Y-%m-%d %H:%M:%S")` (line 97) -/
  nowTime : String
  /-- `webdriver.Chrome(...)` (line 153 or 156) -/
  startBrowser : Except String Unit
  /-- `driver.execute_script(...)` removing the webdriver flag (line 161) -/
  hideWebdriver : Except String Unit
  /-- `driver.get(target_url)` (line 168) -/
  navigate : Except String Unit
  /-- locating and clicking the GitHub button (lines 174–179) -/
  clickGithubBtn : Except String Unit
  /-- `driver.current_url` at the GitHub-login check (line 188) -/
  urlAfterNav : String
  /-- filling and submitting the credential form (lines 192–210) -/
  fillCreds : Except String Unit
  /-- `driver.current_url` at the 2FA check (line 217) -/
  urlAt2FA : String
  /-- the value returned by `pyotp.TOTP(totp_secret).now()` (line 234) -/
  totpToken : String
  /-- token generation, locating `app_totp` and clearing it (lines 234–244) -/
  totpFind : Except String Unit
  /-- `some (k, e)`: the per-character `send_keys` loop (lines 247–249)
  raises `e` after `k` characters were typed; `none`: the loop completes -/
  totpTypeFail : Option (Nat × String)
  /-- how the 2FA form gets submitted (lines 254–289) -/
  submit : SubmitOutcome
  /-- `driver.save_screenshot(".../clawcloud_2fa_error.png")` (line 229) -/
  shot2faMissing : Except String Unit
  /-- `driver.save_screenshot(".../clawcloud_2fa_fail.png")` (line 302) -/
  shot2faFail : Except String Unit
  /-- `driver.current_url` at the authorize check (line 307) -/
  urlAtAuthorize : String
  /-- locating and clicking the Authorize button (lines 310–315) -/
  clickAuthorize : Except String Unit
  /-- `driver.current_url` at line 324 -/
  finalUrl : String
  /-- `driver.page_source` at line 335 -/
  pageSource : String
  /-- `driver.save_screenshot(".../clawcloud_result.png")` (line 328) -/
  resultScreenshot : Except String Unit

/-- Observable trace of one run: texts passed to `send_tg_message`, paths
passed to `driver.save_screenshot`, whether `webdriver.Chrome` returned (so
`driver` is not `None`), the login-walk steps reached, the text typed into
the credential fields, and the keys sent to `app_totp` after its clear. -/
structure RunState where
  msgs : List String
  screenshots : List String
  startedBrowser : Bool
  events : List StepEvent
  credKeys : List (String × String)
  totpKeys : List TotpKey
deriving DecidableEq, Repr

def initState : RunState := ⟨[], [], false, [], [], []⟩

/-- Result of one step of the browser phase: the state so far, and either
`.ok none` (fall through to the next statement), `.ok (some b)` (a `return`
with value `b`), or `.error e` (an uncaught Python exception, to be caught
by the outer handler of lines 370–387). -/
abbrev StepRes := RunState × Except String (Option Bool)

def contStep (st : RunState) : StepRes := (st, .ok none)
def raiseStep (st : RunState) (e : String) : StepRes := (st, .error e)
def retStep (st : RunState) (b : Bool) : StepRes := (st, .ok (some b))

/-- Sequencing: run the continuation only when the step fell through. -/
def seqStep (r : StepRes) (k : RunState → StepRes) : StepRes :=
  match r with
  | (st, .ok none) => k st
  | (st, .ok (some b)) => (st, .ok (some b))
  | (st, .error e) => (st, .error e)

/-! ## The browser phase, stage by stage -/

/-- Lines 149–158: choose the construction mode from `find_chromedriver`
(explicit `Service` path, or Selenium auto-discovery) and construct the
driver.  Either way the same external call outcome `w.startBrowser`
decides; on success `driver` is set. -/
def stageStart (w : World) (st : RunState) : StepRes :=
  match find_chromedriver w.pathExists with
  | some _ =>   -- Service(executable_path=...) plus webdriver.Chrome(service, options)
    match w.startBrowser with
    | .error e => raiseStep st e
    | .ok _ => contStep { st with startedBrowser := true }
  | none =>     -- webdriver.Chrome(options): automatic driver discovery
    match w.startBrowser with
    | .error e => raiseStep st e
    | .ok _ => contStep { st with startedBrowser := true }

/-- Lines 161–163: `driver.execute_script(...)`, not guarded by an inner
`try`. -/
def stageHide (w : World) (st : RunState) : StepRes :=
  match w.hideWebdriver with
  | .error e => raiseStep st e
  | .ok _ => contStep st

/-- Lines 166–169: `driver.get(target_url)` (Step 2). -/
def stageNavigate (w : World) (st : RunState) : StepRes :=
  let st := { st with events := st.events ++ [StepEvent.navigate] }
  match w.navigate with
  | .error e => raiseStep st e
  | .ok _ => contStep st

/-- Lines 172–181 (Step 3): the GitHub-button click is wrapped in its own
`try/except` whose handler only logs, so both outcomes fall through. -/
def stageClickOAuth (w : World) (st : RunState) : StepRes :=
  let st := { st with events := st.events ++ [StepEvent.clickOAuth] }
  match w.clickGithubBtn with
  | .ok _ => contStep st
  | .error _ => contStep st   -- caught at line 180, logged, flow continues

/-- Lines 188–213: if the current URL looks like the GitHub login page,
fill and submit the credential form; its `try/except` handler only logs.
On success the username and password are typed into their fields. -/
def stageFillCreds (username password : String) (w : World) (st : RunState) :
    StepRes :=
  if strIn "github.com" w.urlAfterNav && strIn "login" w.urlAfterNav then
    let st := { st with events := st.events ++ [StepEvent.fillCreds] }
    match w.fillCreds with
    | .ok _ => contStep { st with
        credKeys := st.credKeys ++ [("login_field", username), ("password", password)] }
    | .error _ => contStep st   -- caught at line 212, logged, flow continues
  else contStep st

/-- The per-character typing loop of lines 247–249; a raise after `k`
characters leaves the first `k` characters typed. -/
def typeTotp (token : String) (fail : Option (Nat × String)) (st : RunState) :
    RunState × Except String Unit :=
  match fail with
  | none =>
    ({ st with totpKeys := st.totpKeys ++ token.toList.map TotpKey.ch }, .ok ())
  | some (k, e) =>
    ({ st with totpKeys := st.totpKeys ++ (token.toList.take k).map TotpKey.ch },
     .error e)

/-- Lines 254–289: submitting the 2FA form.  Only the `enter` outcome sends
another key to the `app_totp` field. -/
def stageSubmitTotp (w : World) (st : RunState) : RunState :=
  match w.submit with
  | .enter => { st with totpKeys := st.totpKeys ++ [TotpKey.ret] }
  | _ => st

/-- Lines 293–303: the handler of the 2FA `try` block — notify, screenshot
(itself unguarded, so a raise here escapes to the outer handler), then
`return False`. -/
def twoFAFailExit (masked now e : String) (w : World) (st : RunState) : StepRes :=
  let st := { st with msgs := st.msgs ++ [msg_2fa_fail masked now e] }
  let st := { st with
    screenshots := st.screenshots ++ ["/ql/data/scripts/clawcloud_2fa_fail.png"] }
  match w.shot2faFail with
  | .error e2 => raiseStep st e2
  | .ok _ => retStep st false

/-- Lines 216–303 (Step 5): the 2FA check and handling. -/
def stage2FA (totp_secret masked now : String) (w : World) (st : RunState) :
    StepRes :=
  if strIn "two-factor" w.urlAt2FA || strIn "two_factor" w.urlAt2FA then
    let st := { st with events := st.events ++ [StepEvent.handle2FA] }
    if totp_secret = "" then
      let st := { st with msgs := st.msgs ++ [msg_2fa_missing masked now] }
      let st := { st with
        screenshots := st.screenshots ++ ["/ql/data/scripts/clawcloud_2fa_error.png"] }
      match w.shot2faMissing with
      | .error e => raiseStep st e
      | .ok _ => retStep st false
    else
      match w.totpFind with
      | .error e => twoFAFailExit masked now e w st
      | .ok _ =>
        match typeTotp w.totpToken w.totpTypeFail st with
        | (st, .error e) => twoFAFailExit masked now e w st
        | (st, .ok _) => contStep (stageSubmitTotp w st)
  else contStep st

/-- Lines 306–317 (Step 6): the authorize page; the button click is wrapped
in its own `try/except` whose handler only logs. -/
def stageAuthorize (w : World) (st : RunState) : StepRes :=
  if strIn "authorize" (pyLower w.urlAtAuthorize) then
    let st := { st with events := st.events ++ [StepEvent.handleConsent] }
    match w.clickAuthorize with
    | .ok _ => contStep st
    | .error _ => contStep st   -- caught at line 316, logged, flow continues
  else contStep st

/-- Lines 324–368 (Step 7): read the final URL, save the result screenshot
(unguarded — a raise escapes to the outer handler), classify, notify and
return. -/
def stageVerify (masked now : String) (w : World) (st : RunState) : StepRes :=
  let st := { st with
    screenshots := st.screenshots ++ ["/ql/data/scripts/clawcloud_result.png"] }
  match w.resultScreenshot with
  | .error e => raiseStep st e
  | .ok _ =>
    let st := { st with events := st.events ++ [StepEvent.verify] }
    if classify_success w.pageSource w.finalUrl then
      retStep { st with
        msgs := st.msgs ++ [msg_success masked now w.finalUrl] } true
    else
      retStep { st with
        msgs := st.msgs ++ [msg_classified_fail masked now] } false

/-- Lines 147–368: the body of the outer `try`. -/
def browserPhase (username password totp_secret masked now : String)
    (w : World) (st : RunState) : StepRes :=
  seqStep (stageStart w st) fun st =>
  seqStep (stageHide w st) fun st =>
  seqStep (stageNavigate w st) fun st =>
  seqStep (stageClickOAuth w st) fun st =>
  seqStep (stageFillCreds username password w st) fun st =>
  seqStep (stage2FA totp_secret masked now w st) fun st =>
  seqStep (stageAuthorize w st) fun st =>
  stageVerify masked now w st

/-- Lines 370–387: the outer exception handler — append the exception
notification, then attempt the error screenshot only when `driver` is not
`None` (the screenshot attempt itself is wrapped in `try/except pass`). -/
def errWrap (st : RunState) (m n e : String) : RunState :=
  let st := { st with msgs := st.msgs ++ [msg_exception m n e] }
  if st.startedBrowser then
    { st with screenshots := st.screenshots ++ ["/ql/data/scripts/clawcloud_error.png"] }
  else st

/-- Lines 91–395: `run_login`.  The result is `.error e` only when
`mask_account` raises at line 98 (before any handler is installed);
otherwise `.ok (returned boolean, observable trace)`.  The outer handler
(lines 370–387) notifies, screenshots only when `driver` was constructed,
and returns `False`; the `finally` block only closes the browser. -/
def run_login (env_user env_pass env_secret : Option String) (w : World) :
    Except String (Bool × RunState) :=
  let username := getenvStrip env_user
  let password := getenvStrip env_pass
  let totp_secret := getenvStrip env_secret
  let now_time := w.nowTime
  match mask_account username with
  | none => .error "IndexError: string index out of range"
  | some masked_user =>
    if username = "" ∨ password = "" then
      .ok (false, { initState with msgs := [msg_missing_creds masked_user now_time] })
    else
      match find_chrome w.pathExists with
      | none =>
        .ok (false, { initState with msgs := [msg_no_chrome masked_user now_time] })
      | some _ =>
        match browserPhase username password totp_secret masked_user now_time
            w initState with
        | (st, .ok (some b)) => .ok (b, st)
        | (st, .ok none) => .ok (false, st)   -- unreachable: stageVerify always returns
        | (st, .error e) => .ok (false, errWrap st masked_user now_time e)

/-! ## General helper lemmas -/

theorem strIn_iff (pat s : String) :
    strIn pat s = true ↔ pat.toList <:+: s.toList := by
  simp [strIn]

theorem findFirstExisting_eq_find? (ex : String → Bool) (l : List String) :
    findFirstExisting ex l = l.find? ex := by
  induction l with
  | nil => rfl
  | cons a t ih =>
    rw [findFirstExisting, List.find?]
    by_cases ha : ex a <;> simp [ha, ih]

theorem findFirstExisting_eq_none (ex : String → Bool) (l : List String) :
    findFirstExisting ex l = none ↔ ∀ p ∈ l, ex p = false := by
  rw [findFirstExisting_eq_find?]
  simp

theorem findFirstExisting_eq_some (ex : String → Bool) (l : List String)
    (p : String) :
    findFirstExisting ex l = some p ↔
      ∃ l₁ l₂, l = l₁ ++ p :: l₂ ∧ (∀ q ∈ l₁, ex q = false) ∧ ex p = true := by
  rw [findFirstExisting_eq_find?, List.find?_eq_some]
  constructor
  · rintro ⟨hp, l₁, l₂, hdec, hall⟩
    exact ⟨l₁, l₂, hdec, fun q hq => by simpa using hall q hq, hp⟩
  · rintro ⟨l₁, l₂, hdec, hall, hp⟩
    exact ⟨hp, l₁, l₂, hdec, fun q hq => by simp [hall q hq]⟩

theorem findFirstExisting_congr (ex₁ ex₂ : String → Bool) (l : List String)
    (h : ∀ p ∈ l, ex₁ p = ex₂ p) :
    findFirstExisting ex₁ l = findFirstExisting ex₂ l := by
  induction l with
  | nil => rfl
  | cons a t ih =>
    simp only [findFirstExisting, h a (by simp)]
    exact if_congr Iff.rfl rfl (ih fun p hp => h p (by simp [hp]))

/-! ## C9 — `mask_account`

The claim asserts totality on all strings, in particular for an empty local
part.  The code raises `IndexError` there (`name[0]` on an empty `name`),
so the claim is corrected: `mask_account` is total except when the account
contains `@` with an empty local part. -/

/-- C9 counterexample: on an account whose local part before the `@` is
empty, `mask_account` does not return a string — Python raises `IndexError`
at `name[0]` (line 30), modelled by `none`.  This refutes the claim that
`mask_account` is total on all string inputs. -/
theorem mask_account_empty_local_raises : mask_account "@example.com" = none := by
  rfl

/-- C9 (amended): `mask_account` returns `"unknown"` when the account is
empty or contains no `@`; when the local part before the first `@` is
non-empty it returns the full domain preceded by at most the first three
characters of the local part (one character when the local part has length
`≤ 3`, else three) followed by `"***"`; and when the local part is empty it
raises (`none`). -/
theorem mask_account_spec (s : String) :
    ((s = "" ∨ '@' ∉ s.toList) → mask_account s = some "unknown") ∧
    (s ≠ "" → '@' ∈ s.toList →
      (s.toList.takeWhile (fun c => c != '@') = [] → mask_account s = none) ∧
      (∀ c tl, s.toList.takeWhile (fun c => c != '@') = c :: tl →
        mask_account s = some (String.mk
          ((c :: tl).take (if (c :: tl).length ≤ 3 then 1 else 3) ++
            "***@".toList ++ s.toList.drop ((c :: tl).length + 1))))) := by
  have hmk : ∀ h : s = "" ∨ '@' ∉ s.toList, mask_account s = some "unknown" :=
    fun h => by rw [mask_account, if_pos h]
  refine ⟨hmk, ?_⟩
  intro hne hmem
  have hcond : ¬(s = "" ∨ '@' ∉ s.toList) := by
    push_neg
    exact ⟨hne, hmem⟩
  constructor
  · intro hnil
    rw [mask_account, if_neg hcond]
    simp only [hnil]
    rfl
  · intro c tl htw
    rw [mask_account, if_neg hcond]
    simp only [htw]
    by_cases hlen : (c :: tl).length ≤ 3
    · simp only [hlen, if_true, List.take_succ_cons, List.take_zero]
    · simp only [hlen, if_false]

/-- C9 witness: the amended characterisation evaluated at
`"abcde@ex.com"`, whose local part is longer than three characters. -/
theorem mask_account_spec_witness :
    mask_account "abcde@ex.com" = some "abc***@ex.com" := by
  have h := (mask_account_spec "abcde@ex.com").2 (by decide) (by decide)
  simpa using h

/-! ## C6 — environment resolution

The claim is corrected: when `GH_USERNAME` strips to a value with an `@`
and an empty local part, `mask_account` (line 98) raises before the
missing-credentials check of line 100, so `run_login` propagates an
`IndexError` instead of notifying and returning `False`. -/

/-- A fixed world for closed counterexamples and witnesses. -/
def okU : Except String Unit := .ok ()

/-- A world where every external call succeeds, no browser binary exists,
and the remaining inputs are arbitrary fixed strings. -/
def wNoChrome : World :=
  { pathExists := fun _ => false
    nowTime := "2026-01-01 00:00:00"
    startBrowser := okU, hideWebdriver := okU, navigate := okU
    clickGithubBtn := okU, urlAfterNav := "", fillCreds := okU
    urlAt2FA := "", totpToken := "123456", totpFind := okU
    totpTypeFail := none, submit := SubmitOutcome.button
    shot2faMissing := okU, shot2faFail := okU, urlAtAuthorize := ""
    clickAuthorize := okU, finalUrl := "", pageSource := ""
    resultScreenshot := okU }

/-- C6 counterexample: with `GH_USERNAME = "@x.com"` and `GH_PASSWORD`
absent, the claim says `run_login` notifies and returns `False`; instead
the code raises `IndexError` inside `mask_account` at line 98, before the
credential check, and the exception propagates to the caller. -/
theorem run_login_missing_password_raises :
    run_login (some "@x.com") none none wNoChrome =
      .error "IndexError: string index out of range" := by
  rfl

/-- C6 (amended): `run_login` reads `GH_USERNAME`, `GH_PASSWORD` and
`GH_2FA_SECRET` stripped of surrounding whitespace, and `send_tg_message`
reads `TG_BOT_TOKEN`/`TG_CHAT_ID` the same way; whenever `GH_USERNAME` or
`GH_PASSWORD` is absent or whitespace-only — provided `mask_account` does
not raise on the stripped username — `run_login` passes the
missing-credentials message to `send_tg_message` and returns `False`
with no browser started, no screenshot, no events and no keystrokes; and
`send_tg_message` skips the webhook call exactly when `TG_BOT_TOKEN` or
`TG_CHAT_ID` is absent or whitespace-only. -/
theorem run_login_env_resolution :
    (∀ eu ep es (w : World) m,
      mask_account (getenvStrip eu) = some m →
      (getenvStrip eu = "" ∨ getenvStrip ep = "") →
      run_login eu ep es w =
        .ok (false, ⟨[msg_missing_creds m w.nowTime], [], false, [], [], []⟩)) ∧
    (∀ bot chat, send_tg_attempts bot chat = false ↔
      (getenvStrip bot = "" ∨ getenvStrip chat = "")) := by
  constructor
  · intro eu ep es w m hm hempty
    rw [run_login]
    simp only [hm, if_pos hempty]
    rfl
  · intro bot chat
    rw [send_tg_attempts]
    split <;> simp_all

/-- C6 witness: both parts at concrete inputs — a whitespace-only password
and an unset `TG_CHAT_ID`. -/
theorem run_login_env_resolution_witness :
    run_login (some "u@e.com") (some "   ") none wNoChrome =
      .ok (false, ⟨[msg_missing_creds "u***@e.com" "2026-01-01 00:00:00"],
        [], false, [], [], []⟩) ∧
    (send_tg_attempts (some "token") none = false ↔
      (getenvStrip (some "token") = "" ∨ getenvStrip none = "")) := by
  exact ⟨run_login_env_resolution.1 (some "u@e.com") (some "   ") none wNoChrome
      "u***@e.com" (by rfl) (Or.inr (by rfl)),
    run_login_env_resolution.2 (some "token") none⟩

/-! ## C5 — browser and driver discovery -/

/-- The two arms of the `find_chromedriver` branch (lines 150–156) construct
the driver differently but are observationally identical in the model, so
the branch collapses. -/
theorem stageStart_collapse (w : World) (st : RunState) :
    stageStart w st =
      match w.startBrowser with
      | .error e => raiseStep st e
      | .ok _ => contStep { st with startedBrowser := true } := by
  cases h : find_chromedriver w.pathExists <;> simp [stageStart, h]

theorem browserPhase_pathExists_congr (u p ts m n : String) (w : World)
    (ex2 : String → Bool) (st : RunState) :
    browserPhase u p ts m n { w with pathExists := ex2 } st =
      browserPhase u p ts m n w st := by
  unfold browserPhase
  simp only [stageStart_collapse]
  rfl

theorem run_login_congr_world (eu ep es : Option String) (w₁ w₂ : World)
    (hnow : w₁.nowTime = w₂.nowTime)
    (hfc : find_chrome w₁.pathExists = find_chrome w₂.pathExists)
    (hbp : ∀ u p ts m n st,
      browserPhase u p ts m n w₁ st = browserPhase u p ts m n w₂ st) :
    run_login eu ep es w₁ = run_login eu ep es w₂ := by
  simp only [run_login, hnow, hfc, hbp]

/-- C5: `find_chrome` returns the first existing candidate of the fixed
chrome list and `none` when none exists; `find_chromedriver` likewise over
its list; when `find_chrome` is `none`, `run_login` notifies and returns
`False` with no browser started (and no events, screenshots or
keystrokes); and the presence or absence of a chromedriver candidate never
changes the result of `run_login` at all. -/
theorem find_chrome_chromedriver_spec :
    (∀ ex, find_chrome ex = none ↔ ∀ p ∈ chrome_candidates, ex p = false) ∧
    (∀ ex p, find_chrome ex = some p ↔
      ∃ l₁ l₂, chrome_candidates = l₁ ++ p :: l₂ ∧
        (∀ q ∈ l₁, ex q = false) ∧ ex p = true) ∧
    (∀ ex, find_chromedriver ex = none ↔
      ∀ p ∈ chromedriver_candidates, ex p = false) ∧
    (∀ ex p, find_chromedriver ex = some p ↔
      ∃ l₁ l₂, chromedriver_candidates = l₁ ++ p :: l₂ ∧
        (∀ q ∈ l₁, ex q = false) ∧ ex p = true) ∧
    (∀ eu ep es (w : World) m,
      mask_account (getenvStrip eu) = some m →
      getenvStrip eu ≠ "" → getenvStrip ep ≠ "" →
      find_chrome w.pathExists = none →
      run_login eu ep es w =
        .ok (false, ⟨[msg_no_chrome m w.nowTime], [], false, [], [], []⟩)) ∧
    (∀ eu ep es (w : World) (ex2 : String → Bool),
      (∀ p ∈ chrome_candidates, ex2 p = w.pathExists p) →
      run_login eu ep es { w with pathExists := ex2 } = run_login eu ep es w) := by
  refine ⟨fun ex => findFirstExisting_eq_none ex _,
          fun ex p => findFirstExisting_eq_some ex _ p,
          fun ex => findFirstExisting_eq_none ex _,
          fun ex p => findFirstExisting_eq_some ex _ p, ?_, ?_⟩
  · intro eu ep es w m hm hu hp hchrome
    rw [run_login]
    simp only [hm, hchrome, if_neg (show ¬(getenvStrip eu = "" ∨ getenvStrip ep = "")
      by simp [hu, hp])]
    rfl
  · intro eu ep es w ex2 hagree
    exact run_login_congr_world eu ep es _ w rfl
      (findFirstExisting_congr ex2 w.pathExists chrome_candidates hagree)
      (fun u p ts m n st => browserPhase_pathExists_congr u p ts m n w ex2 st)

/-- C5 witness: the no-chrome abort evaluated on a world where no candidate
path exists. -/
theorem find_chrome_chromedriver_spec_witness :
    run_login (some "u@e.com") (some "pw") none wNoChrome =
      .ok (false, ⟨[msg_no_chrome "u***@e.com" "2026-01-01 00:00:00"],
        [], false, [], [], []⟩) :=
  find_chrome_chromedriver_spec.2.2.2.2.1 (some "u@e.com") (some "pw") none
    wNoChrome "u***@e.com" rfl (by decide) (by decide) rfl


/-! ## The intermediate states of the browser phase

Each definition names the observable state at a cut point of the walk,
as a function of the world; `browserPhase_cases` below states that every
run of the browser phase ends in one of eleven terminal shapes. -/

def stStart : RunState := { initState with startedBrowser := true }

def stNav : RunState := { stStart with events := [StepEvent.navigate] }

def stClick : RunState :=
  { stNav with events := [StepEvent.navigate, StepEvent.clickOAuth] }

/-- The GitHub-login-page test of line 188. -/
def credsCond (w : World) : Bool :=
  strIn "github.com" w.urlAfterNav && strIn "login" w.urlAfterNav

/-- Keystrokes sent to the credential fields (empty when the login page is
not detected or the fill raises). -/
def credsKeys (u p : String) (w : World) : List (String × String) :=
  if credsCond w then
    match w.fillCreds with
    | .ok _ => [("login_field", u), ("password", p)]
    | .error _ => []
  else []

def stCreds (u p : String) (w : World) : RunState :=
  { stClick with
    events := stClick.events ++ (if credsCond w then [StepEvent.fillCreds] else []),
    credKeys := credsKeys u p w }

/-- The 2FA-page test of line 217. -/
def markerCond (w : World) : Bool :=
  strIn "two-factor" w.urlAt2FA || strIn "two_factor" w.urlAt2FA

def st2FAEntered (u p : String) (w : World) : RunState :=
  { stCreds u p w with
    events := (stCreds u p w).events ++ [StepEvent.handle2FA] }

/-- State at the missing-secret exit (lines 220–230). -/
def stMiss (u p m n : String) (w : World) : RunState :=
  { st2FAEntered u p w with
    msgs := [msg_2fa_missing m n],
    screenshots := ["/ql/data/scripts/clawcloud_2fa_error.png"] }

/-- State at the 2FA-fill-failure exit (lines 293–303), with `tk` the
keystrokes that made it into the field before the raise. -/
def st2FAFail (u p m n e : String) (tk : List TotpKey) (w : World) : RunState :=
  { st2FAEntered u p w with
    msgs := [msg_2fa_fail m n e],
    screenshots := ["/ql/data/scripts/clawcloud_2fa_fail.png"],
    totpKeys := tk }

/-- The extra key sent to `app_totp` by the submit fallback. -/
def submitExtra (w : World) : List TotpKey :=
  match w.submit with
  | .enter => [TotpKey.ret]
  | _ => []

def stTyped (u p : String) (w : World) : RunState :=
  { st2FAEntered u p w with
    totpKeys := w.totpToken.toList.map TotpKey.ch ++ submitExtra w }

/-- State after the 2FA step on the fall-through paths. -/
def stAfter2FA (u p : String) (w : World) : RunState :=
  if markerCond w then stTyped u p w else stCreds u p w

def stAuthed (u p : String) (w : World) : RunState :=
  { stAfter2FA u p w with
    events := (stAfter2FA u p w).events ++
      (if strIn "authorize" (pyLower w.urlAtAuthorize) then
        [StepEvent.handleConsent] else []) }

def stShot (u p : String) (w : World) : RunState :=
  { stAuthed u p w with
    screenshots := (stAuthed u p w).screenshots ++
      ["/ql/data/scripts/clawcloud_result.png"] }

def verdict (w : World) : Bool := classify_success w.pageSource w.finalUrl

def verdictMsg (m n : String) (w : World) : String :=
  if verdict w then msg_success m n w.finalUrl else msg_classified_fail m n

/-- Final state of a run that reaches the classification. -/
def stFinal (u p m n : String) (w : World) : RunState :=
  { stShot u p w with
    events := (stShot u p w).events ++ [StepEvent.verify],
    msgs := (stShot u p w).msgs ++ [verdictMsg m n w] }

/-! ### Reduction lemmas -/

@[simp] theorem seqStep_err (st : RunState) (e : String) (k : RunState → StepRes) :
    seqStep (st, .error e) k = (st, .error e) := rfl

@[simp] theorem seqStep_ok_none (st : RunState) (k : RunState → StepRes) :
    seqStep (st, .ok none) k = k st := rfl

@[simp] theorem seqStep_ok_some (st : RunState) (b : Bool) (k : RunState → StepRes) :
    seqStep (st, .ok (some b)) k = (st, .ok (some b)) := rfl

theorem stageClickOAuth_eq (w : World) (st : RunState) :
    stageClickOAuth w st =
      contStep { st with events := st.events ++ [StepEvent.clickOAuth] } := by
  cases h : w.clickGithubBtn <;> simp [stageClickOAuth, h]

theorem stageFillCreds_eq (u p : String) (w : World) (st : RunState) :
    stageFillCreds u p w st =
      contStep { st with
        events := st.events ++ (if credsCond w then [StepEvent.fillCreds] else []),
        credKeys := st.credKeys ++ credsKeys u p w } := by
  simp only [stageFillCreds, credsCond, credsKeys]
  split
  · cases h : w.fillCreds <;> simp [h]
  · simp

theorem stageAuthorize_eq (w : World) (st : RunState) :
    stageAuthorize w st =
      contStep { st with
        events := st.events ++
          (if strIn "authorize" (pyLower w.urlAtAuthorize) then
            [StepEvent.handleConsent] else []) } := by
  simp only [stageAuthorize]
  split
  · cases h : w.clickAuthorize <;> simp [h]
  · simp

theorem stageSubmitTotp_eq (w : World) (st : RunState) :
    stageSubmitTotp w st = { st with totpKeys := st.totpKeys ++ submitExtra w } := by
  cases h : w.submit <;> simp [stageSubmitTotp, submitExtra, h]

/-! ### Exhaustive case analysis of the browser phase -/

/-- Every run of the browser phase from the initial state ends in one of
eleven terminal shapes: an uncaught raise at browser start, at the
webdriver-flag script, at navigation, at one of the three screenshot
calls, a `return False` from the missing-secret or 2FA-failure handlers,
or classification with verdict `classify_success`. -/
theorem browserPhase_cases (u p ts m n : String) (w : World) :
    (∃ e, w.startBrowser = .error e ∧
      browserPhase u p ts m n w initState = (initState, .error e)) ∨
    (w.startBrowser = .ok () ∧ ∃ e, w.hideWebdriver = .error e ∧
      browserPhase u p ts m n w initState = (stStart, .error e)) ∨
    (w.startBrowser = .ok () ∧ w.hideWebdriver = .ok () ∧
      ∃ e, w.navigate = .error e ∧
      browserPhase u p ts m n w initState = (stNav, .error e)) ∨
    (w.startBrowser = .ok () ∧ w.hideWebdriver = .ok () ∧ w.navigate = .ok () ∧
      markerCond w = true ∧ ts = "" ∧ ∃ e, w.shot2faMissing = .error e ∧
      browserPhase u p ts m n w initState = (stMiss u p m n w, .error e)) ∨
    (w.startBrowser = .ok () ∧ w.hideWebdriver = .ok () ∧ w.navigate = .ok () ∧
      markerCond w = true ∧ ts = "" ∧ w.shot2faMissing = .ok () ∧
      browserPhase u p ts m n w initState = (stMiss u p m n w, .ok (some false))) ∨
    (w.startBrowser = .ok () ∧ w.hideWebdriver = .ok () ∧ w.navigate = .ok () ∧
      markerCond w = true ∧ ts ≠ "" ∧ ∃ e e2, w.totpFind = .error e ∧
      w.shot2faFail = .error e2 ∧
      browserPhase u p ts m n w initState = (st2FAFail u p m n e [] w, .error e2)) ∨
    (w.startBrowser = .ok () ∧ w.hideWebdriver = .ok () ∧ w.navigate = .ok () ∧
      markerCond w = true ∧ ts ≠ "" ∧ ∃ e, w.totpFind = .error e ∧
      w.shot2faFail = .ok () ∧
      browserPhase u p ts m n w initState =
        (st2FAFail u p m n e [] w, .ok (some false))) ∨
    (w.startBrowser = .ok () ∧ w.hideWebdriver = .ok () ∧ w.navigate = .ok () ∧
      markerCond w = true ∧ ts ≠ "" ∧ w.totpFind = .ok () ∧
      ∃ k e e2, w.totpTypeFail = some (k, e) ∧ w.shot2faFail = .error e2 ∧
      browserPhase u p ts m n w initState =
        (st2FAFail u p m n e ((w.totpToken.toList.take k).map TotpKey.ch) w,
          .error e2)) ∨
    (w.startBrowser = .ok () ∧ w.hideWebdriver = .ok () ∧ w.navigate = .ok () ∧
      markerCond w = true ∧ ts ≠ "" ∧ w.totpFind = .ok () ∧
      ∃ k e, w.totpTypeFail = some (k, e) ∧ w.shot2faFail = .ok () ∧
      browserPhase u p ts m n w initState =
        (st2FAFail u p m n e ((w.totpToken.toList.take k).map TotpKey.ch) w,
          .ok (some false))) ∨
    (w.startBrowser = .ok () ∧ w.hideWebdriver = .ok () ∧ w.navigate = .ok () ∧
      (markerCond w = false ∨
        (ts ≠ "" ∧ w.totpFind = .ok () ∧ w.totpTypeFail = none)) ∧
      ∃ e, w.resultScreenshot = .error e ∧
      browserPhase u p ts m n w initState = (stShot u p w, .error e)) ∨
    (w.startBrowser = .ok () ∧ w.hideWebdriver = .ok () ∧ w.navigate = .ok () ∧
      (markerCond w = false ∨
        (ts ≠ "" ∧ w.totpFind = .ok () ∧ w.totpTypeFail = none)) ∧
      w.resultScreenshot = .ok () ∧
      browserPhase u p ts m n w initState =
        (stFinal u p m n w, .ok (some (verdict w)))) := by
  cases hsb : w.startBrowser with
  | error e =>
    exact Or.inl ⟨e, rfl, by
      simp [browserPhase, stageStart_collapse, hsb, raiseStep]⟩
  | ok uu =>
    cases hhw : w.hideWebdriver with
    | error e =>
      refine Or.inr (Or.inl ⟨rfl, e, rfl, ?_⟩)
      simp [browserPhase, stageStart_collapse, hsb, hhw, stageHide, contStep,
        raiseStep, stStart, initState]
    | ok uu2 =>
      cases hnv : w.navigate with
      | error e =>
        refine Or.inr (Or.inr (Or.inl ⟨rfl, rfl, e, rfl, ?_⟩))
        simp [browserPhase, stageStart_collapse, hsb, hhw, hnv, stageHide,
          stageNavigate, contStep, raiseStep, stStart, stNav, initState]
      | ok uu3 =>
        by_cases hmk : markerCond w = true
        · have hmk2 : (strIn "two-factor" w.urlAt2FA ||
              strIn "two_factor" w.urlAt2FA) = true := by
            simpa [markerCond] using hmk
          by_cases hts : ts = ""
          · cases hsm : w.shot2faMissing with
            | error e =>
              refine Or.inr (Or.inr (Or.inr (Or.inl
                ⟨rfl, rfl, rfl, hmk, hts, e, rfl, ?_⟩)))
              simp [browserPhase, stageStart_collapse, hsb, hhw, hnv, stageHide,
                stageNavigate, stageClickOAuth_eq, stageFillCreds_eq, stage2FA, hmk2,
                hts, hsm, contStep, raiseStep, retStep, stStart, stNav, stClick,
                stCreds, st2FAEntered, stMiss, initState]
            | ok uu4 =>
              refine Or.inr (Or.inr (Or.inr (Or.inr (Or.inl
                ⟨rfl, rfl, rfl, hmk, hts, rfl, ?_⟩))))
              simp [browserPhase, stageStart_collapse, hsb, hhw, hnv, stageHide,
                stageNavigate, stageClickOAuth_eq, stageFillCreds_eq, stage2FA, hmk2,
                hts, hsm, contStep, raiseStep, retStep, stStart, stNav, stClick,
                stCreds, st2FAEntered, stMiss, initState]
          · cases htf : w.totpFind with
            | error e =>
              cases hsf : w.shot2faFail with
              | error e2 =>
                refine Or.inr (Or.inr (Or.inr (Or.inr (Or.inr (Or.inl
                  ⟨rfl, rfl, rfl, hmk, hts, e, e2, rfl, rfl, ?_⟩)))))
                simp [browserPhase, stageStart_collapse, hsb, hhw, hnv, stageHide,
                  stageNavigate, stageClickOAuth_eq, stageFillCreds_eq, stage2FA, hmk2,
                  hts, htf, hsf, twoFAFailExit, contStep, raiseStep, retStep, stStart,
                  stNav, stClick, stCreds, st2FAEntered, st2FAFail, initState]
              | ok uu4 =>
                refine Or.inr (Or.inr (Or.inr (Or.inr (Or.inr (Or.inr (Or.inl
                  ⟨rfl, rfl, rfl, hmk, hts, e, rfl, rfl, ?_⟩))))))
                simp [browserPhase, stageStart_collapse, hsb, hhw, hnv, stageHide,
                  stageNavigate, stageClickOAuth_eq, stageFillCreds_eq, stage2FA, hmk2,
                  hts, htf, hsf, twoFAFailExit, contStep, raiseStep, retStep, stStart,
                  stNav, stClick, stCreds, st2FAEntered, st2FAFail, initState]
            | ok uu4 =>
              cases httf : w.totpTypeFail with
              | some ke =>
                obtain ⟨k, e⟩ := ke
                cases hsf : w.shot2faFail with
                | error e2 =>
                  refine Or.inr (Or.inr (Or.inr (Or.inr (Or.inr (Or.inr (Or.inr (Or.inl
                    ⟨rfl, rfl, rfl, hmk, hts, rfl, k, e, e2, rfl, rfl, ?_⟩)))))))
                  simp [browserPhase, stageStart_collapse, hsb, hhw, hnv, stageHide,
                    stageNavigate, stageClickOAuth_eq, stageFillCreds_eq, stage2FA,
                    hmk2, hts, htf, httf, hsf, twoFAFailExit, typeTotp, contStep,
                    raiseStep, retStep, stStart, stNav, stClick, stCreds,
                    st2FAEntered, st2FAFail, initState]
                | ok uu5 =>
                  refine Or.inr (Or.inr (Or.inr (Or.inr (Or.inr (Or.inr (Or.inr (Or.inr (Or.inl
                    ⟨rfl, rfl, rfl, hmk, hts, rfl, k, e, rfl, rfl, ?_⟩))))))))
                  simp [browserPhase, stageStart_collapse, hsb, hhw, hnv, stageHide,
                    stageNavigate, stageClickOAuth_eq, stageFillCreds_eq, stage2FA,
                    hmk2, hts, htf, httf, hsf, twoFAFailExit, typeTotp, contStep,
                    raiseStep, retStep, stStart, stNav, stClick, stCreds,
                    st2FAEntered, st2FAFail, initState]
              | none =>
                cases hrs : w.resultScreenshot with
                | error e =>
                  refine Or.inr (Or.inr (Or.inr (Or.inr (Or.inr (Or.inr (Or.inr (Or.inr (Or.inr (Or.inl
                    ⟨rfl, rfl, rfl, Or.inr ⟨hts, rfl, rfl⟩, e, rfl, ?_⟩)))))))))
                  simp [browserPhase, stageStart_collapse, hsb, hhw, hnv, stageHide,
                    stageNavigate, stageClickOAuth_eq, stageFillCreds_eq, stage2FA,
                    hmk2, hmk, hts, htf, httf, hrs, typeTotp, stageSubmitTotp_eq,
                    stageAuthorize_eq, stageVerify, contStep, raiseStep, retStep,
                    stStart, stNav, stClick, stCreds, st2FAEntered, stTyped,
                    stAfter2FA, stAuthed, stShot, initState]
                | ok uu5 =>
                  refine Or.inr (Or.inr (Or.inr (Or.inr (Or.inr (Or.inr (Or.inr (Or.inr (Or.inr (Or.inr
                    ⟨rfl, rfl, rfl, Or.inr ⟨hts, rfl, rfl⟩, rfl, ?_⟩)))))))))
                  cases hcls : classify_success w.pageSource w.finalUrl <;>
                    simp [browserPhase, stageStart_collapse, hsb, hhw, hnv, stageHide,
                      stageNavigate, stageClickOAuth_eq, stageFillCreds_eq, stage2FA,
                      hmk2, hmk, hts, htf, httf, hrs, hcls, typeTotp,
                      stageSubmitTotp_eq, stageAuthorize_eq, stageVerify, contStep,
                      raiseStep, retStep, stStart, stNav, stClick, stCreds,
                      st2FAEntered, stTyped, stAfter2FA, stAuthed, stShot, stFinal,
                      verdict, verdictMsg, initState]
        · have hmk2 : (strIn "two-factor" w.urlAt2FA ||
              strIn "two_factor" w.urlAt2FA) = false := by
            simpa [markerCond] using hmk
          have hmkf : markerCond w = false := by simpa [markerCond] using hmk
          cases hrs : w.resultScreenshot with
          | error e =>
            refine Or.inr (Or.inr (Or.inr (Or.inr (Or.inr (Or.inr (Or.inr (Or.inr (Or.inr (Or.inl
              ⟨rfl, rfl, rfl, Or.inl hmkf, e, rfl, ?_⟩)))))))))
            simp [browserPhase, stageStart_collapse, hsb, hhw, hnv, stageHide,
              stageNavigate, stageClickOAuth_eq, stageFillCreds_eq, stage2FA, hmk2,
              hmkf, hrs, stageAuthorize_eq, stageVerify, contStep, raiseStep, retStep,
              stStart, stNav, stClick, stCreds, st2FAEntered, stAfter2FA, stAuthed,
              stShot, initState]
          | ok uu4 =>
            refine Or.inr (Or.inr (Or.inr (Or.inr (Or.inr (Or.inr (Or.inr (Or.inr (Or.inr (Or.inr
              ⟨rfl, rfl, rfl, Or.inl hmkf, rfl, ?_⟩)))))))))
            cases hcls : classify_success w.pageSource w.finalUrl <;>
              simp [browserPhase, stageStart_collapse, hsb, hhw, hnv, stageHide,
                stageNavigate, stageClickOAuth_eq, stageFillCreds_eq, stage2FA, hmk2,
                hmkf, hrs, hcls, stageAuthorize_eq, stageVerify, contStep, raiseStep,
                retStep, stStart, stNav, stClick, stCreds, st2FAEntered, stAfter2FA,
                stAuthed, stShot, stFinal, verdict, verdictMsg, initState]


/-! ## Inversion of `run_login` -/

theorem errWrap_msgs (st : RunState) (m n e : String) :
    (errWrap st m n e).msgs = st.msgs ++ [msg_exception m n e] := by
  rw [errWrap]
  split <;> rfl

theorem errWrap_events (st : RunState) (m n e : String) :
    (errWrap st m n e).events = st.events := by
  rw [errWrap]
  split <;> rfl

theorem errWrap_totpKeys (st : RunState) (m n e : String) :
    (errWrap st m n e).totpKeys = st.totpKeys := by
  rw [errWrap]
  split <;> rfl

/-- The browser phase never falls through: it always raises or returns. -/
theorem browserPhase_not_cont (u p ts m n : String) (w : World) (st : RunState) :
    browserPhase u p ts m n w initState ≠ (st, .ok none) := by
  rcases browserPhase_cases u p ts m n w with
    ⟨e, -, hbp⟩ | ⟨-, e, -, hbp⟩ | ⟨-, -, e, -, hbp⟩ | ⟨-, -, -, -, -, e, -, hbp⟩ |
    ⟨-, -, -, -, -, -, hbp⟩ | ⟨-, -, -, -, -, e, e2, -, -, hbp⟩ |
    ⟨-, -, -, -, -, e, -, -, hbp⟩ | ⟨-, -, -, -, -, -, k, e, e2, -, -, hbp⟩ |
    ⟨-, -, -, -, -, -, k, e, -, -, hbp⟩ | ⟨-, -, -, -, e, -, hbp⟩ |
    ⟨-, -, -, -, -, hbp⟩ <;>
    simp [hbp]

/-- Every `.ok` result of `run_login` arises from the missing-credentials
exit, the missing-browser exit, a returning browser phase, or a raising
browser phase wrapped by the outer handler. -/
theorem run_login_ok_inv (eu ep es : Option String) (w : World) (b : Bool)
    (st : RunState) (h : run_login eu ep es w = .ok (b, st)) :
    ∃ m, mask_account (getenvStrip eu) = some m ∧
      (((getenvStrip eu = "" ∨ getenvStrip ep = "") ∧ b = false ∧
        st = { initState with msgs := [msg_missing_creds m w.nowTime] }) ∨
       (¬(getenvStrip eu = "" ∨ getenvStrip ep = "") ∧
        find_chrome w.pathExists = none ∧ b = false ∧
        st = { initState with msgs := [msg_no_chrome m w.nowTime] }) ∨
       (¬(getenvStrip eu = "" ∨ getenvStrip ep = "") ∧
        (∃ cp, find_chrome w.pathExists = some cp) ∧
        (browserPhase (getenvStrip eu) (getenvStrip ep) (getenvStrip es) m
            w.nowTime w initState = (st, .ok (some b)) ∨
         ∃ st1 e, browserPhase (getenvStrip eu) (getenvStrip ep) (getenvStrip es) m
            w.nowTime w initState = (st1, .error e) ∧ b = false ∧
            st = errWrap st1 m w.nowTime e))) := by
  rw [run_login] at h
  rcases hm : mask_account (getenvStrip eu) with - | m
  · rw [hm] at h
    exact absurd h (by simp)
  · rw [hm] at h
    simp only at h
    refine ⟨m, rfl, ?_⟩
    by_cases hcred : getenvStrip eu = "" ∨ getenvStrip ep = ""
    · rw [if_pos hcred] at h
      simp only [Except.ok.injEq, Prod.mk.injEq] at h
      exact Or.inl ⟨hcred, h.1.symm, h.2.symm⟩
    · rw [if_neg hcred] at h
      rcases hch : find_chrome w.pathExists with - | cp
      · rw [hch] at h
        simp only [Except.ok.injEq, Prod.mk.injEq] at h
        exact Or.inr (Or.inl ⟨hcred, rfl, h.1.symm, h.2.symm⟩)
      · rw [hch] at h
        simp only at h
        refine Or.inr (Or.inr ⟨hcred, ⟨cp, rfl⟩, ?_⟩)
        rcases hbp : browserPhase (getenvStrip eu) (getenvStrip ep)
            (getenvStrip es) m w.nowTime w initState with ⟨st1, r⟩
        rw [hbp] at h
        cases r with
        | error e =>
          simp only [Except.ok.injEq, Prod.mk.injEq] at h
          exact Or.inr ⟨st1, e, rfl, h.1.symm, h.2.symm⟩
        | ok ob =>
          cases ob with
          | none => exact absurd hbp (browserPhase_not_cont _ _ _ _ _ _ _)
          | some b1 =>
            simp only [Except.ok.injEq, Prod.mk.injEq] at h
            simp [h.1, h.2]

/-- Membership in a conditional singleton of walk events. -/
theorem mem_ite_single (a x : StepEvent) (c : Bool) :
    (a ∈ (if c = true then [x] else [])) ↔ (c = true ∧ a = x) := by
  cases c <;> simp


/-! ## C1 — outcome classification -/

/-- C1: the success heuristic holds exactly for the stated disjunction —
lowercased page source containing "app launchpad" or "devbox", final URL
containing "private-team" or "console", or final URL containing neither
"signin" nor "github.com" — and whenever `run_login` reaches the
verification step, its returned boolean is exactly that heuristic applied
to the final page source and URL. -/
theorem run_login_classifies_success :
    (∀ p u, classify_success p u = true ↔
      ((("app launchpad".toList <:+: (pyLower p).toList) ∨
        ("devbox".toList <:+: (pyLower p).toList)) ∨
       (("private-team".toList <:+: u.toList) ∨
        ("console".toList <:+: u.toList)) ∨
       (¬("signin".toList <:+: u.toList) ∧
        ¬("github.com".toList <:+: u.toList)))) ∧
    (∀ eu ep es (w : World) b st, run_login eu ep es w = .ok (b, st) →
      StepEvent.verify ∈ st.events →
      b = classify_success w.pageSource w.finalUrl) := by
  constructor
  · intro p u
    simp only [classify_success, strIn]
    split_ifs <;> simp_all
  · intro eu ep es w b st h hv
    obtain ⟨m, hm, hcase⟩ := run_login_ok_inv eu ep es w b st h
    rcases hcase with ⟨-, -, rfl⟩ | ⟨-, -, -, rfl⟩ | ⟨-, -, hbp2⟩
    · simp [initState] at hv
    · simp [initState] at hv
    · rcases hbp2 with hbp | ⟨st1, e, hbp, rfl, rfl⟩
      · rcases browserPhase_cases (getenvStrip eu) (getenvStrip ep)
            (getenvStrip es) m w.nowTime w with
          ⟨e, -, hb⟩ | ⟨-, e, -, hb⟩ | ⟨-, -, e, -, hb⟩ | ⟨-, -, -, -, -, e, -, hb⟩ |
          ⟨-, -, -, -, -, -, hb⟩ | ⟨-, -, -, -, -, e, e2, -, -, hb⟩ |
          ⟨-, -, -, -, -, e, -, -, hb⟩ | ⟨-, -, -, -, -, -, k, e, e2, -, -, hb⟩ |
          ⟨-, -, -, -, -, -, k, e, -, -, hb⟩ | ⟨-, -, -, -, e, -, hb⟩ |
          ⟨-, -, -, -, -, hb⟩ <;>
          rw [hb] at hbp <;>
          simp only [Prod.mk.injEq, Except.error.injEq, Except.ok.injEq,
            reduceCtorEq, Option.some.injEq, and_false, false_and] at hbp
        · obtain ⟨rfl, -⟩ := hbp
          simp [stMiss, st2FAEntered, stCreds, stClick, stNav, stStart,
            initState, mem_ite_single] at hv
        · obtain ⟨rfl, -⟩ := hbp
          simp [st2FAFail, st2FAEntered, stCreds, stClick, stNav, stStart,
            initState, mem_ite_single] at hv
        · obtain ⟨rfl, -⟩ := hbp
          simp [st2FAFail, st2FAEntered, stCreds, stClick, stNav, stStart,
            initState, mem_ite_single] at hv
        · obtain ⟨rfl, hverd⟩ := hbp
          exact hverd.symm
      · rcases browserPhase_cases (getenvStrip eu) (getenvStrip ep)
            (getenvStrip es) m w.nowTime w with
          ⟨e1, -, hb⟩ | ⟨-, e1, -, hb⟩ | ⟨-, -, e1, -, hb⟩ | ⟨-, -, -, -, -, e1, -, hb⟩ |
          ⟨-, -, -, -, -, -, hb⟩ | ⟨-, -, -, -, -, e1, e2, -, -, hb⟩ |
          ⟨-, -, -, -, -, e1, -, -, hb⟩ | ⟨-, -, -, -, -, -, k, e1, e2, -, -, hb⟩ |
          ⟨-, -, -, -, -, -, k, e1, -, -, hb⟩ | ⟨-, -, -, -, e1, -, hb⟩ |
          ⟨-, -, -, -, -, hb⟩ <;>
          rw [hb] at hbp <;>
          simp only [Prod.mk.injEq, Except.error.injEq, Except.ok.injEq,
            reduceCtorEq, Option.some.injEq, and_false, false_and] at hbp <;>
          obtain ⟨rfl, -⟩ := hbp <;>
          rw [errWrap_events] at hv
        · simp [initState] at hv
        · simp [stStart, initState] at hv
        · simp [stNav, stStart, initState] at hv
        · simp [stMiss, st2FAEntered, stCreds, stClick, stNav, stStart,
            initState, mem_ite_single] at hv
        · simp [st2FAFail, st2FAEntered, stCreds, stClick, stNav, stStart,
            initState, mem_ite_single] at hv
        · simp [st2FAFail, st2FAEntered, stCreds, stClick, stNav, stStart,
            initState, mem_ite_single] at hv
        · cases hmk2 : markerCond w <;>
            simp [stShot, stAuthed, stAfter2FA, stTyped, stCreds, st2FAEntered,
              stClick, stNav, stStart, initState, mem_ite_single, hmk2] at hv


/-! ## C2 — a status message on every return path -/

/-- The message opens like the success notification of line 349. -/
def isSuccessText (msg : String) : Prop :=
  "🎉 ClawCloud 登录成功".toList <+: msg.toList

/-- The message opens like one of the failure notifications (lines 102,
222, 295, 360, 372). -/
def isFailureText (msg : String) : Prop :=
  "❌ ClawCloud 登录失败".toList <+: msg.toList ∨
  "🚨 ClawCloud 登录中断（致命）".toList <+: msg.toList ∨
  "❌ ClawCloud 登录异常".toList <+: msg.toList

theorem prefix_of_append (pre a b : String) (h : pre.toList <+: a.toList) :
    pre.toList <+: (a ++ b).toList :=
  h.trans (List.prefix_append a.toList b.toList)

theorem failure_missing_creds (m t : String) :
    isFailureText (msg_missing_creds m t) :=
  Or.inl (prefix_of_append _ _ _ (prefix_of_append _ _ _
    (prefix_of_append _ _ _ (by decide))))

theorem failure_no_chrome (m t : String) : isFailureText (msg_no_chrome m t) :=
  Or.inl (prefix_of_append _ _ _ (prefix_of_append _ _ _
    (prefix_of_append _ _ _ (by decide))))

theorem failure_2fa_missing (m t : String) : isFailureText (msg_2fa_missing m t) :=
  Or.inr (Or.inl (prefix_of_append _ _ _ (prefix_of_append _ _ _
    (prefix_of_append _ _ _ (by decide)))))

theorem failure_2fa_fail (m t e : String) : isFailureText (msg_2fa_fail m t e) :=
  Or.inl (prefix_of_append _ _ _ (prefix_of_append _ _ _
    (prefix_of_append _ _ _ (prefix_of_append _ _ _ (by decide)))))

theorem failure_classified (m t : String) :
    isFailureText (msg_classified_fail m t) :=
  Or.inl (prefix_of_append _ _ _ (prefix_of_append _ _ _
    (prefix_of_append _ _ _ (prefix_of_append _ _ _ (by decide)))))

theorem failure_exception (m t e : String) : isFailureText (msg_exception m t e) :=
  Or.inr (Or.inr (prefix_of_append _ _ _ (prefix_of_append _ _ _
    (prefix_of_append _ _ _ (prefix_of_append _ _ _ (by decide))))))

theorem success_text (m t url : String) : isSuccessText (msg_success m t url) :=
  prefix_of_append _ _ _ (prefix_of_append _ _ _
    (prefix_of_append _ _ _ (prefix_of_append _ _ _ (by decide))))

/-- C2: whenever `run_login` returns, at least one notification text has
been passed to `send_tg_message`, and the last one describes the outcome:
it opens with the success banner exactly when the run returned `True`, and
with one of the three failure banners when it returned `False`. -/
theorem run_login_always_notifies :
    ∀ eu ep es (w : World) b st, run_login eu ep es w = .ok (b, st) →
      ∃ msg, st.msgs.getLast? = some msg ∧
        (b = true → isSuccessText msg) ∧ (b = false → isFailureText msg) := by
  intro eu ep es w b st h
  obtain ⟨m, hm, hcase⟩ := run_login_ok_inv eu ep es w b st h
  rcases hcase with ⟨-, rfl, rfl⟩ | ⟨-, -, rfl, rfl⟩ | ⟨-, -, hbp2⟩
  · exact ⟨_, rfl, by simp, fun _ => failure_missing_creds m w.nowTime⟩
  · exact ⟨_, rfl, by simp, fun _ => failure_no_chrome m w.nowTime⟩
  · rcases hbp2 with hbp | ⟨st1, e, hbp, rfl, rfl⟩
    · rcases browserPhase_cases (getenvStrip eu) (getenvStrip ep)
          (getenvStrip es) m w.nowTime w with
        ⟨e, -, hb⟩ | ⟨-, e, -, hb⟩ | ⟨-, -, e, -, hb⟩ | ⟨-, -, -, -, -, e, -, hb⟩ |
        ⟨-, -, -, -, -, -, hb⟩ | ⟨-, -, -, -, -, e, e2, -, -, hb⟩ |
        ⟨-, -, -, -, -, e, -, -, hb⟩ | ⟨-, -, -, -, -, -, k, e, e2, -, -, hb⟩ |
        ⟨-, -, -, -, -, -, k, e, -, -, hb⟩ | ⟨-, -, -, -, e, -, hb⟩ |
        ⟨-, -, -, -, -, hb⟩ <;>
        rw [hb] at hbp <;>
        simp only [Prod.mk.injEq, Except.error.injEq, Except.ok.injEq,
          reduceCtorEq, Option.some.injEq, and_false, false_and] at hbp
      · obtain ⟨rfl, rfl⟩ := hbp
        exact ⟨_, by simp [stMiss], by simp, fun _ => failure_2fa_missing m w.nowTime⟩
      · obtain ⟨rfl, rfl⟩ := hbp
        exact ⟨_, by simp [st2FAFail], by simp,
          fun _ => failure_2fa_fail m w.nowTime e⟩
      · obtain ⟨rfl, rfl⟩ := hbp
        exact ⟨_, by simp [st2FAFail], by simp,
          fun _ => failure_2fa_fail m w.nowTime e⟩
      · obtain ⟨rfl, hverd⟩ := hbp
        refine ⟨verdictMsg m w.nowTime w, ?_, ?_, ?_⟩
        · simp [stFinal, stShot, stAuthed, stAfter2FA, stTyped, stCreds,
            st2FAEntered, stClick, stNav, stStart, initState]
        · intro hbt
          rw [← hverd] at hbt
          have hcl : classify_success w.pageSource w.finalUrl = true := by
            simpa [verdict] using hbt
          simpa [verdictMsg, verdict, hcl] using success_text m w.nowTime w.finalUrl
        · intro hbf
          rw [← hverd] at hbf
          have hcl : classify_success w.pageSource w.finalUrl = false := by
            simpa [verdict] using hbf
          simpa [verdictMsg, verdict, hcl] using failure_classified m w.nowTime
    · refine ⟨msg_exception m w.nowTime e, ?_, by simp, fun _ => failure_exception m w.nowTime e⟩
      rw [errWrap_msgs]
      simp

/-! ## C7 — the fixed order of the login walk -/

/-- The canonical order of the six steps. -/
def loginWalkOrder : List StepEvent :=
  [StepEvent.navigate, StepEvent.clickOAuth, StepEvent.fillCreds,
   StepEvent.handle2FA, StepEvent.handleConsent, StepEvent.verify]

/-- C7: the step events of any run of `run_login` form a subsequence of the
canonical walk `navigate → clickOAuth → fillCreds → handle2FA →
handleConsent → verify` — so the steps that do occur appear in that fixed
order, each at most once, with no loop or retry returning to an earlier
step. -/
theorem run_login_step_order :
    ∀ eu ep es (w : World) b st, run_login eu ep es w = .ok (b, st) →
      st.events.Sublist loginWalkOrder ∧ st.events.Nodup := by
  intro eu ep es w b st h
  obtain ⟨m, hm, hcase⟩ := run_login_ok_inv eu ep es w b st h
  have hstep : ∀ st1 : RunState,
      (browserPhase (getenvStrip eu) (getenvStrip ep) (getenvStrip es) m
        w.nowTime w initState).1 = st1 →
      st1.events.Sublist loginWalkOrder ∧ st1.events.Nodup := by
    intro st1 hst1
    rcases browserPhase_cases (getenvStrip eu) (getenvStrip ep)
        (getenvStrip es) m w.nowTime w with
      ⟨e, -, hb⟩ | ⟨-, e, -, hb⟩ | ⟨-, -, e, -, hb⟩ | ⟨-, -, -, -, -, e, -, hb⟩ |
      ⟨-, -, -, -, -, -, hb⟩ | ⟨-, -, -, -, -, e, e2, -, -, hb⟩ |
      ⟨-, -, -, -, -, e, -, -, hb⟩ | ⟨-, -, -, -, -, -, k, e, e2, -, -, hb⟩ |
      ⟨-, -, -, -, -, -, k, e, -, -, hb⟩ | ⟨-, -, -, -, e, -, hb⟩ |
      ⟨-, -, -, -, -, hb⟩ <;>
      rw [hb] at hst1 <;> rw [← hst1]
    · exact show initState.events.Sublist loginWalkOrder ∧ initState.events.Nodup
        by decide
    · exact show stStart.events.Sublist loginWalkOrder ∧ stStart.events.Nodup
        by decide
    · exact show stNav.events.Sublist loginWalkOrder ∧ stNav.events.Nodup
        by decide
    · cases hc : credsCond w <;>
        simp [stMiss, st2FAEntered, stCreds, stClick, stNav, stStart,
          initState, loginWalkOrder, hc]
    · cases hc : credsCond w <;>
        simp [stMiss, st2FAEntered, stCreds, stClick, stNav, stStart,
          initState, loginWalkOrder, hc]
    · cases hc : credsCond w <;>
        simp [st2FAFail, st2FAEntered, stCreds, stClick, stNav, stStart,
          initState, loginWalkOrder, hc]
    · cases hc : credsCond w <;>
        simp [st2FAFail, st2FAEntered, stCreds, stClick, stNav, stStart,
          initState, loginWalkOrder, hc]
    · cases hc : credsCond w <;>
        simp [st2FAFail, st2FAEntered, stCreds, stClick, stNav, stStart,
          initState, loginWalkOrder, hc]
    · cases hc : credsCond w <;>
        simp [st2FAFail, st2FAEntered, stCreds, stClick, stNav, stStart,
          initState, loginWalkOrder, hc]
    · cases hc : credsCond w <;> cases hmk : markerCond w <;>
        cases ha : strIn "authorize" (pyLower w.urlAtAuthorize) <;>
        simp [stShot, stAuthed, stAfter2FA, stTyped, stCreds, st2FAEntered,
          stClick, stNav, stStart, initState, loginWalkOrder, hc, hmk, ha]
    · cases hc : credsCond w <;> cases hmk : markerCond w <;>
        cases ha : strIn "authorize" (pyLower w.urlAtAuthorize) <;>
        simp [stFinal, stShot, stAuthed, stAfter2FA, stTyped, stCreds,
          st2FAEntered, stClick, stNav, stStart, initState, loginWalkOrder,
          hc, hmk, ha]
  rcases hcase with ⟨-, -, rfl⟩ | ⟨-, -, -, rfl⟩ | ⟨-, -, hbp2⟩
  · simp [initState, loginWalkOrder]
  · simp [initState, loginWalkOrder]
  · rcases hbp2 with hbp | ⟨st1, e, hbp, -, rfl⟩
    · exact hstep st (by rw [hbp])
    · have := hstep st1 (by rw [hbp])
      rw [errWrap_events]
      exact this


/-! ## C4 — the TOTP second factor is optional -/

theorem stage2FA_no_marker (ts m n : String) (w : World) (st : RunState)
    (h : (strIn "two-factor" w.urlAt2FA || strIn "two_factor" w.urlAt2FA) = false) :
    stage2FA ts m n w st = contStep st := by
  simp [stage2FA, h]

theorem seqStep_congr (r : StepRes) (k1 k2 : RunState → StepRes)
    (h : ∀ st, k1 st = k2 st) : seqStep r k1 = seqStep r k2 := by
  rcases r with ⟨st, o⟩
  cases o with
  | error e => rfl
  | ok ob => cases ob <;> simp [seqStep, h]

theorem browserPhase_secret_congr (u p ts1 ts2 m n : String) (w : World)
    (st : RunState)
    (h : (strIn "two-factor" w.urlAt2FA || strIn "two_factor" w.urlAt2FA) = false) :
    browserPhase u p ts1 m n w st = browserPhase u p ts2 m n w st := by
  unfold browserPhase
  refine seqStep_congr _ _ _ fun s1 => ?_
  refine seqStep_congr _ _ _ fun s2 => ?_
  refine seqStep_congr _ _ _ fun s3 => ?_
  refine seqStep_congr _ _ _ fun s4 => ?_
  refine seqStep_congr _ _ _ fun s5 => ?_
  rw [stage2FA_no_marker ts1 m n w s5 h, stage2FA_no_marker ts2 m n w s5 h]

/-- C4: if the URL at the 2FA check contains "two-factor" or "two_factor"
and `GH_2FA_SECRET` strips to empty, any run that reaches the 2FA step
returns `False` and the fatal-interruption notification is among the texts
passed to `send_tg_message`; and when no 2FA page is detected, the value of
`GH_2FA_SECRET` has no effect on the run at all — the flow proceeds without
any TOTP secret being required. -/
theorem run_login_2fa_optional :
    (∀ eu ep es (w : World) b st, run_login eu ep es w = .ok (b, st) →
      getenvStrip es = "" → StepEvent.handle2FA ∈ st.events →
      b = false ∧ ∃ m, mask_account (getenvStrip eu) = some m ∧
        msg_2fa_missing m w.nowTime ∈ st.msgs) ∧
    (∀ eu ep es es2 (w : World),
      (strIn "two-factor" w.urlAt2FA || strIn "two_factor" w.urlAt2FA) = false →
      run_login eu ep es w = run_login eu ep es2 w) := by
  constructor
  · intro eu ep es w b st h hts hmem
    obtain ⟨m, hm, hcase⟩ := run_login_ok_inv eu ep es w b st h
    rcases hcase with ⟨-, -, rfl⟩ | ⟨-, -, -, rfl⟩ | ⟨-, -, hbp2⟩
    · simp [initState] at hmem
    · simp [initState] at hmem
    · rcases hbp2 with hbp | ⟨st1, e, hbp, rfl, rfl⟩
      · rcases browserPhase_cases (getenvStrip eu) (getenvStrip ep)
            (getenvStrip es) m w.nowTime w with
          ⟨e, -, hb⟩ | ⟨-, e, -, hb⟩ | ⟨-, -, e, -, hb⟩ | ⟨-, -, -, -, -, e, -, hb⟩ |
          ⟨-, -, -, -, -, -, hb⟩ | ⟨-, -, -, -, hts2, e, e2, -, -, hb⟩ |
          ⟨-, -, -, -, hts2, e, -, -, hb⟩ | ⟨-, -, -, -, hts2, -, k, e, e2, -, -, hb⟩ |
          ⟨-, -, -, -, hts2, -, k, e, -, -, hb⟩ | ⟨-, -, -, hg, e, -, hb⟩ |
          ⟨-, -, -, hg, -, hb⟩ <;>
          rw [hb] at hbp <;>
          simp only [Prod.mk.injEq, Except.error.injEq, Except.ok.injEq,
            reduceCtorEq, Option.some.injEq, and_false, false_and] at hbp
        · obtain ⟨rfl, rfl⟩ := hbp
          exact ⟨rfl, m, hm, by simp [stMiss]⟩
        · exact absurd hts hts2
        · exact absurd hts hts2
        · obtain ⟨rfl, -⟩ := hbp
          rcases hg with hmkf | ⟨hts2, -⟩
          · exfalso
            cases hc : credsCond w <;>
              cases ha : strIn "authorize" (pyLower w.urlAtAuthorize) <;>
              simp [stFinal, stShot, stAuthed, stAfter2FA, stCreds, st2FAEntered,
                stClick, stNav, stStart, initState, hmkf, hc, ha] at hmem
          · exact absurd hts hts2
      · rcases browserPhase_cases (getenvStrip eu) (getenvStrip ep)
            (getenvStrip es) m w.nowTime w with
          ⟨e1, -, hb⟩ | ⟨-, e1, -, hb⟩ | ⟨-, -, e1, -, hb⟩ | ⟨-, -, -, -, -, e1, -, hb⟩ |
          ⟨-, -, -, -, -, -, hb⟩ | ⟨-, -, -, -, hts2, e1, e2, -, -, hb⟩ |
          ⟨-, -, -, -, hts2, e1, -, -, hb⟩ | ⟨-, -, -, -, hts2, -, k, e1, e2, -, -, hb⟩ |
          ⟨-, -, -, -, hts2, -, k, e1, -, -, hb⟩ | ⟨-, -, -, hg, e1, -, hb⟩ |
          ⟨-, -, -, hg, -, hb⟩ <;>
          rw [hb] at hbp <;>
          simp only [Prod.mk.injEq, Except.error.injEq, Except.ok.injEq,
            reduceCtorEq, Option.some.injEq, and_false, false_and] at hbp <;>
          obtain ⟨rfl, -⟩ := hbp <;>
          rw [errWrap_events] at hmem
        · simp [initState] at hmem
        · simp [stStart, initState] at hmem
        · simp [stNav, stStart, initState] at hmem
        · refine ⟨rfl, m, hm, ?_⟩
          rw [errWrap_msgs]
          simp [stMiss]
        · exact absurd hts hts2
        · exact absurd hts hts2
        · rcases hg with hmkf | ⟨hts2, -⟩
          · exfalso
            cases hc : credsCond w <;>
              cases ha : strIn "authorize" (pyLower w.urlAtAuthorize) <;>
              simp [stShot, stAuthed, stAfter2FA, stCreds, st2FAEntered,
                stClick, stNav, stStart, initState, hmkf, hc, ha] at hmem
          · exact absurd hts hts2
  · intro eu ep es es2 w hmk
    have hcongr : ∀ u' p' m' n' st',
        browserPhase u' p' (getenvStrip es) m' n' w st' =
          browserPhase u' p' (getenvStrip es2) m' n' w st' :=
      fun u' p' m' n' st' =>
        browserPhase_secret_congr u' p' (getenvStrip es) (getenvStrip es2)
          m' n' w st' hmk
    simp only [run_login, hcongr]

/-! ## C8 — what gets typed into the TOTP field -/

theorem submitExtra_eq (w : World) :
    submitExtra w = if w.submit = SubmitOutcome.enter then [TotpKey.ret] else [] := by
  cases h : w.submit <;> simp [submitExtra, h]

/-- C8 (amended): when the 2FA step runs with a configured secret and the
fill succeeds (`app_totp` located, every character typed without raising),
the keys sent to the `app_totp` field after its clear are exactly the
characters of `pyotp.TOTP(GH_2FA_SECRET).now()` in order, one `send_keys`
call per character — followed by a single Return keystroke sent to the same
field if and only if no submit button was found (lines 274–279).  Nothing
else reaches the field. -/
theorem totp_typed_exactly_token :
    ∀ eu ep es (w : World) b st, run_login eu ep es w = .ok (b, st) →
      getenvStrip es ≠ "" → StepEvent.handle2FA ∈ st.events →
      w.totpFind = .ok () → w.totpTypeFail = none →
      st.totpKeys = w.totpToken.toList.map TotpKey.ch ++
        (if w.submit = SubmitOutcome.enter then [TotpKey.ret] else []) := by
  intro eu ep es w b st h hts hmem hfind htype
  obtain ⟨m, hm, hcase⟩ := run_login_ok_inv eu ep es w b st h
  rcases hcase with ⟨-, -, rfl⟩ | ⟨-, -, -, rfl⟩ | ⟨-, -, hbp2⟩
  · simp [initState] at hmem
  · simp [initState] at hmem
  · have hmain : ∀ st1 : RunState,
        (browserPhase (getenvStrip eu) (getenvStrip ep) (getenvStrip es) m
          w.nowTime w initState).1 = st1 →
        StepEvent.handle2FA ∈ st1.events →
        st1.totpKeys = w.totpToken.toList.map TotpKey.ch ++
          (if w.submit = SubmitOutcome.enter then [TotpKey.ret] else []) := by
      intro st1 hst1 hmem1
      rcases browserPhase_cases (getenvStrip eu) (getenvStrip ep)
          (getenvStrip es) m w.nowTime w with
        ⟨e, -, hb⟩ | ⟨-, e, -, hb⟩ | ⟨-, -, e, -, hb⟩ | ⟨-, -, -, -, hts2, e, -, hb⟩ |
        ⟨-, -, -, -, hts2, -, hb⟩ | ⟨-, -, -, -, -, e, e2, hf, -, hb⟩ |
        ⟨-, -, -, -, -, e, hf, -, hb⟩ | ⟨-, -, -, -, -, -, k, e, e2, htf2, -, hb⟩ |
        ⟨-, -, -, -, -, -, k, e, htf2, -, hb⟩ | ⟨-, -, -, hg, e, -, hb⟩ |
        ⟨-, -, -, hg, -, hb⟩ <;>
        rw [hb] at hst1 <;> rw [← hst1] at hmem1 ⊢
      · simp [initState] at hmem1
      · simp [stStart, initState] at hmem1
      · simp [stNav, stStart, initState] at hmem1
      · exact absurd hts2 hts
      · exact absurd hts2 hts
      · rw [hfind] at hf
        exact absurd hf (by simp)
      · rw [hfind] at hf
        exact absurd hf (by simp)
      · rw [htype] at htf2
        exact absurd htf2 (by simp)
      · rw [htype] at htf2
        exact absurd htf2 (by simp)
      · cases hmk : markerCond w with
        | false =>
          exfalso
          cases hc : credsCond w <;>
            cases ha : strIn "authorize" (pyLower w.urlAtAuthorize) <;>
            simp [stShot, stAuthed, stAfter2FA, stCreds, st2FAEntered, stClick,
              stNav, stStart, initState, hmk, hc, ha] at hmem1
        | true =>
          rw [← submitExtra_eq]
          simp [stShot, stAuthed, stAfter2FA, stTyped, st2FAEntered, stCreds,
            stClick, stNav, stStart, initState, hmk]
      · cases hmk : markerCond w with
        | false =>
          exfalso
          cases hc : credsCond w <;>
            cases ha : strIn "authorize" (pyLower w.urlAtAuthorize) <;>
            simp [stFinal, stShot, stAuthed, stAfter2FA, stCreds, st2FAEntered,
              stClick, stNav, stStart, initState, hmk, hc, ha] at hmem1
        | true =>
          rw [← submitExtra_eq]
          simp [stFinal, stShot, stAuthed, stAfter2FA, stTyped, st2FAEntered,
            stCreds, stClick, stNav, stStart, initState, hmk]
    rcases hbp2 with hbp | ⟨st1, e, hbp, -, rfl⟩
    · exact hmain st (by rw [hbp]) hmem
    · rw [errWrap_totpKeys]
      rw [errWrap_events] at hmem
      exact hmain st1 (by rw [hbp]) hmem


/-! ## C3 — the outer exception handler -/

/-- C3 (amended): (1) `run_login` can only propagate the `mask_account`
`IndexError`; every exception of the browser phase is caught.  (2) When the
browser phase raises `e` on a run that got past the credential and browser
checks, `run_login` logs and notifies with a message containing the
exception text, attempts the error screenshot provided the browser had
been started (`driver` not `None`), and returns `False`. -/
theorem run_login_catches_browser_exceptions :
    (∀ eu ep es (w : World) r, run_login eu ep es w = .error r →
      mask_account (getenvStrip eu) = none) ∧
    (∀ eu ep es (w : World) m st e cp,
      mask_account (getenvStrip eu) = some m →
      getenvStrip eu ≠ "" → getenvStrip ep ≠ "" →
      find_chrome w.pathExists = some cp →
      browserPhase (getenvStrip eu) (getenvStrip ep) (getenvStrip es) m
        w.nowTime w initState = (st, .error e) →
      run_login eu ep es w = .ok (false, errWrap st m w.nowTime e) ∧
        e.toList <:+ (msg_exception m w.nowTime e).toList ∧
        (st.startedBrowser = true →
          "/ql/data/scripts/clawcloud_error.png" ∈
            (errWrap st m w.nowTime e).screenshots)) := by
  constructor
  · intro eu ep es w r h
    rw [run_login] at h
    rcases hm : mask_account (getenvStrip eu) with - | m
    · rfl
    · rw [hm] at h
      simp only at h
      exfalso
      by_cases hcred : getenvStrip eu = "" ∨ getenvStrip ep = ""
      · rw [if_pos hcred] at h
        exact absurd h (by simp)
      · rw [if_neg hcred] at h
        rcases hch : find_chrome w.pathExists with - | cp
        · rw [hch] at h
          exact absurd h (by simp)
        · rw [hch] at h
          simp only at h
          rcases hbp : browserPhase (getenvStrip eu) (getenvStrip ep)
              (getenvStrip es) m w.nowTime w initState with ⟨st1, o⟩
          rw [hbp] at h
          cases o with
          | error e => simp at h
          | ok ob => cases ob <;> simp at h
  · intro eu ep es w m st e cp hm hu hp hch hbp
    refine ⟨?_, ?_, ?_⟩
    · rw [run_login]
      simp only [hm, hch, hbp,
        if_neg (show ¬(getenvStrip eu = "" ∨ getenvStrip ep = "")
          by simp [hu, hp])]
    · exact ⟨("❌ ClawCloud 登录异常\n\n" ++ acctLine m ++ timeLine w.nowTime ++
        "⚠️ 错误：").toList, rfl⟩
    · intro hs
      rw [errWrap]
      simp [hs]

/-! ## Concrete worlds for the closed counterexamples and witnesses -/

/-- A world where every external call succeeds and the whole walk runs:
chromium found, GitHub login page, 2FA page, authorize page, and a final
page that classifies as success. -/
def wFull : World :=
  { pathExists := fun q => q == "/usr/bin/chromium"
    nowTime := "2026-01-01 00:00:00"
    startBrowser := okU, hideWebdriver := okU, navigate := okU
    clickGithubBtn := okU
    urlAfterNav := "https://github.com/login"
    fillCreds := okU
    urlAt2FA := "https://github.com/sessions/two-factor/app"
    totpToken := "123456"
    totpFind := okU, totpTypeFail := none, submit := SubmitOutcome.button
    shot2faMissing := okU, shot2faFail := okU
    urlAtAuthorize := "https://github.com/login/oauth/authorize"
    clickAuthorize := okU
    finalUrl := "https://ap-northeast-1.run.claw.cloud/"
    pageSource := "<html>App Launchpad</html>"
    resultScreenshot := okU }

/-- `wFull`, but no submit button is found for the 2FA form, so the code
falls back to sending the Return key into `app_totp` (line 278). -/
def wEnter : World := { wFull with submit := SubmitOutcome.enter }

/-- `wFull`, but `webdriver.Chrome` raises. -/
def wStartFail : World := { wFull with startBrowser := .error "boom" }

/-- The final state of a complete successful run on `wFull`. -/
def stFull : RunState :=
  ⟨[msg_success "u***@e.com" "2026-01-01 00:00:00"
      "https://ap-northeast-1.run.claw.cloud/"],
   ["/ql/data/scripts/clawcloud_result.png"], true,
   [StepEvent.navigate, StepEvent.clickOAuth, StepEvent.fillCreds,
    StepEvent.handle2FA, StepEvent.handleConsent, StepEvent.verify],
   [("login_field", "u@e.com"), ("password", "pw")],
   "123456".toList.map TotpKey.ch⟩

/-- The final state of a run on `wFull` with no `GH_2FA_SECRET`. -/
def st2faMiss : RunState :=
  ⟨[msg_2fa_missing "u***@e.com" "2026-01-01 00:00:00"],
   ["/ql/data/scripts/clawcloud_2fa_error.png"], true,
   [StepEvent.navigate, StepEvent.clickOAuth, StepEvent.fillCreds,
    StepEvent.handle2FA],
   [("login_field", "u@e.com"), ("password", "pw")], []⟩

/-- C3 counterexample: when `webdriver.Chrome` itself raises, the outer
handler catches and notifies, but `driver` is `None`, so — contrary to the
claim — no screenshot is attempted for this caught exception: the list of
screenshot calls is empty. -/
theorem run_login_start_failure_no_screenshot :
    run_login (some "u@e.com") (some "pw") none wStartFail =
      .ok (false, ⟨[msg_exception "u***@e.com" "2026-01-01 00:00:00" "boom"],
        [], false, [], [], []⟩) := by
  rfl

/-- C3 witness: the amended handler description evaluated on `wStartFail`. -/
theorem run_login_catches_browser_exceptions_witness :
    run_login (some "u@e.com") (some "pw") none wStartFail =
      .ok (false, errWrap initState "u***@e.com" "2026-01-01 00:00:00" "boom") ∧
    "boom".toList <:+
      (msg_exception "u***@e.com" "2026-01-01 00:00:00" "boom").toList ∧
    (initState.startedBrowser = true →
      "/ql/data/scripts/clawcloud_error.png" ∈
        (errWrap initState "u***@e.com" "2026-01-01 00:00:00" "boom").screenshots) :=
  run_login_catches_browser_exceptions.2 (some "u@e.com") (some "pw") none
    wStartFail "u***@e.com" initState "boom" "/usr/bin/chromium"
    rfl (by decide) (by decide) rfl rfl

/-- C8 counterexample: with no submit button found, the Return key is also
sent to the `app_totp` field after the token, so what is typed into the
field is not exactly the TOTP token. -/
theorem totp_enter_key_also_sent :
    run_login (some "u@e.com") (some "pw") (some "S") wEnter =
      .ok (true, ⟨[msg_success "u***@e.com" "2026-01-01 00:00:00"
          "https://ap-northeast-1.run.claw.cloud/"],
        ["/ql/data/scripts/clawcloud_result.png"], true,
        [StepEvent.navigate, StepEvent.clickOAuth, StepEvent.fillCreds,
         StepEvent.handle2FA, StepEvent.handleConsent, StepEvent.verify],
        [("login_field", "u@e.com"), ("password", "pw")],
        "123456".toList.map TotpKey.ch ++ [TotpKey.ret]⟩) ∧
    "123456".toList.map TotpKey.ch ++ [TotpKey.ret] ≠
      wEnter.totpToken.toList.map TotpKey.ch := by
  constructor
  · rfl
  · decide

/-- C8 witness: the amended statement evaluated on the full run `wFull`,
where a submit button exists and exactly the six token characters are
typed. -/
theorem totp_typed_exactly_token_witness :
    stFull.totpKeys = wFull.totpToken.toList.map TotpKey.ch ++
      (if wFull.submit = SubmitOutcome.enter then [TotpKey.ret] else []) :=
  totp_typed_exactly_token (some "u@e.com") (some "pw") (some "S") wFull true
    stFull rfl (by decide) (by decide) rfl rfl

/-- C1 witness: the classification link evaluated on the full run `wFull`. -/
theorem run_login_classifies_success_witness :
    (true : Bool) = classify_success wFull.pageSource wFull.finalUrl :=
  run_login_classifies_success.2 (some "u@e.com") (some "pw") (some "S") wFull
    true stFull rfl (by decide)

/-- C2 witness: on the full run `wFull` the last notification is the
success message. -/
theorem run_login_always_notifies_witness :
    stFull.msgs.getLast? = some (msg_success "u***@e.com" "2026-01-01 00:00:00"
      "https://ap-northeast-1.run.claw.cloud/") ∧
    isSuccessText (msg_success "u***@e.com" "2026-01-01 00:00:00"
      "https://ap-northeast-1.run.claw.cloud/") := by
  obtain ⟨msg, h1, h2, -⟩ := run_login_always_notifies (some "u@e.com")
    (some "pw") (some "S") wFull true stFull rfl
  rw [show stFull.msgs.getLast? = some (msg_success "u***@e.com"
    "2026-01-01 00:00:00" "https://ap-northeast-1.run.claw.cloud/") from rfl] at h1
  injection h1 with h1
  subst h1
  exact ⟨rfl, h2 rfl⟩

/-- C4 witness: a run on `wFull` with no secret configured stops at the 2FA
step with the fatal notification. -/
theorem run_login_2fa_optional_witness :
    (false : Bool) = false ∧
    msg_2fa_missing "u***@e.com" "2026-01-01 00:00:00" ∈ st2faMiss.msgs := by
  obtain ⟨hb, m, hm, hmem⟩ := run_login_2fa_optional.1 (some "u@e.com")
    (some "pw") none wFull false st2faMiss rfl rfl (by decide)
  rw [show mask_account (getenvStrip (some "u@e.com")) = some "u***@e.com"
    from rfl] at hm
  injection hm with hm
  subst hm
  exact ⟨hb, hmem⟩

/-- C7 witness: the events of the full run `wFull` form the complete walk in
order. -/
theorem run_login_step_order_witness :
    stFull.events.Sublist loginWalkOrder ∧ stFull.events.Nodup :=
  run_login_step_order (some "u@e.com") (some "pw") (some "S") wFull true
    stFull rfl


/-! ## C10 — the password flows only into the password field

The observation function hides the keystrokes sent to the credential form
fields (which do receive the password) and keeps everything else: the
returned boolean, every notification text, screenshots, events and TOTP
keystrokes.  Two runs differing only in the password (both non-empty) are
observationally identical; and two runs differing only in the username are
observationally identical whenever the masked account and the emptiness
check agree — so notifications depend on the account only through
`mask_account`. -/

/-- Forget the keystrokes typed into the credential fields. -/
def eraseCred (st : RunState) : RunState := { st with credKeys := [] }

/-- The observable part of a `run_login` result. -/
def obsResult (r : Except String (Bool × RunState)) :
    Except String (Bool × RunState) :=
  r.map fun pr => (pr.1, eraseCred pr.2)

theorem eraseCred_eq_iff (st1 st2 : RunState) :
    eraseCred st1 = eraseCred st2 ↔
      st1.msgs = st2.msgs ∧ st1.screenshots = st2.screenshots ∧
      st1.startedBrowser = st2.startedBrowser ∧ st1.events = st2.events ∧
      st1.totpKeys = st2.totpKeys := by
  cases st1
  cases st2
  simp [eraseCred]

/-- Relatedness of step results: equal up to credential keystrokes. -/
def StepRel (r1 r2 : StepRes) : Prop :=
  eraseCred r1.1 = eraseCred r2.1 ∧ r1.2 = r2.2

theorem seqStep_rel {r1 r2 : StepRes} {k1 k2 : RunState → StepRes}
    (hr : StepRel r1 r2)
    (hk : ∀ s1 s2, eraseCred s1 = eraseCred s2 → StepRel (k1 s1) (k2 s2)) :
    StepRel (seqStep r1 k1) (seqStep r2 k2) := by
  obtain ⟨h1, h2⟩ := hr
  rcases r1 with ⟨s1, o1⟩
  rcases r2 with ⟨s2, o2⟩
  simp only at h1 h2
  subst h2
  cases o1 with
  | error e => exact ⟨h1, rfl⟩
  | ok ob =>
    cases ob with
    | none => exact hk s1 s2 h1
    | some b => exact ⟨h1, rfl⟩

theorem stageStart_rel (w : World) {s1 s2 : RunState}
    (h : eraseCred s1 = eraseCred s2) :
    StepRel (stageStart w s1) (stageStart w s2) := by
  rw [eraseCred_eq_iff] at h
  obtain ⟨h1, h2, h3, h4, h5⟩ := h
  rw [stageStart_collapse, stageStart_collapse]
  cases w.startBrowser <;>
    simp [StepRel, contStep, raiseStep, eraseCred_eq_iff, h1, h2, h3, h4, h5]

theorem stageHide_rel (w : World) {s1 s2 : RunState}
    (h : eraseCred s1 = eraseCred s2) :
    StepRel (stageHide w s1) (stageHide w s2) := by
  cases hh : w.hideWebdriver <;>
    simp [stageHide, hh, StepRel, contStep, raiseStep, h]

theorem stageNavigate_rel (w : World) {s1 s2 : RunState}
    (h : eraseCred s1 = eraseCred s2) :
    StepRel (stageNavigate w s1) (stageNavigate w s2) := by
  rw [eraseCred_eq_iff] at h
  obtain ⟨h1, h2, h3, h4, h5⟩ := h
  cases hh : w.navigate <;>
    simp [stageNavigate, hh, StepRel, contStep, raiseStep, eraseCred_eq_iff,
      h1, h2, h3, h4, h5]

theorem stageClickOAuth_rel (w : World) {s1 s2 : RunState}
    (h : eraseCred s1 = eraseCred s2) :
    StepRel (stageClickOAuth w s1) (stageClickOAuth w s2) := by
  rw [eraseCred_eq_iff] at h
  obtain ⟨h1, h2, h3, h4, h5⟩ := h
  rw [stageClickOAuth_eq, stageClickOAuth_eq]
  simp [StepRel, contStep, eraseCred_eq_iff, h1, h2, h3, h4, h5]

theorem stageFillCreds_rel (u1 p1 u2 p2 : String) (w : World) {s1 s2 : RunState}
    (h : eraseCred s1 = eraseCred s2) :
    StepRel (stageFillCreds u1 p1 w s1) (stageFillCreds u2 p2 w s2) := by
  rw [eraseCred_eq_iff] at h
  obtain ⟨h1, h2, h3, h4, h5⟩ := h
  rw [stageFillCreds_eq, stageFillCreds_eq]
  simp [StepRel, contStep, eraseCred_eq_iff, h1, h2, h3, h4, h5]

theorem stage2FA_rel (ts m n : String) (w : World) {s1 s2 : RunState}
    (h : eraseCred s1 = eraseCred s2) :
    StepRel (stage2FA ts m n w s1) (stage2FA ts m n w s2) := by
  rw [eraseCred_eq_iff] at h
  obtain ⟨h1, h2, h3, h4, h5⟩ := h
  by_cases hmk : (strIn "two-factor" w.urlAt2FA ||
      strIn "two_factor" w.urlAt2FA) = true
  · by_cases hts : ts = ""
    · cases hsm : w.shot2faMissing <;>
        simp [stage2FA, hmk, hts, hsm, StepRel, contStep, raiseStep, retStep,
          eraseCred_eq_iff, h1, h2, h3, h4, h5]
    · cases htf : w.totpFind with
      | error e =>
        cases hsf : w.shot2faFail <;>
          simp [stage2FA, twoFAFailExit, hmk, hts, htf, hsf, StepRel, contStep,
            raiseStep, retStep, eraseCred_eq_iff, h1, h2, h3, h4, h5]
      | ok uu =>
        cases httf : w.totpTypeFail with
        | some ke =>
          obtain ⟨k, e⟩ := ke
          cases hsf : w.shot2faFail <;>
            simp [stage2FA, twoFAFailExit, typeTotp, hmk, hts, htf, httf, hsf,
              StepRel, contStep, raiseStep, retStep, eraseCred_eq_iff,
              h1, h2, h3, h4, h5]
        | none =>
          cases hsub : w.submit <;>
            simp [stage2FA, typeTotp, stageSubmitTotp, hmk, hts, htf, httf,
              hsub, StepRel, contStep, raiseStep, retStep, eraseCred_eq_iff,
              h1, h2, h3, h4, h5]
  · simp [stage2FA, hmk, StepRel, contStep, eraseCred_eq_iff,
      h1, h2, h3, h4, h5]

theorem stageAuthorize_rel (w : World) {s1 s2 : RunState}
    (h : eraseCred s1 = eraseCred s2) :
    StepRel (stageAuthorize w s1) (stageAuthorize w s2) := by
  rw [eraseCred_eq_iff] at h
  obtain ⟨h1, h2, h3, h4, h5⟩ := h
  rw [stageAuthorize_eq, stageAuthorize_eq]
  simp [StepRel, contStep, eraseCred_eq_iff, h1, h2, h3, h4, h5]

theorem stageVerify_rel (m n : String) (w : World) {s1 s2 : RunState}
    (h : eraseCred s1 = eraseCred s2) :
    StepRel (stageVerify m n w s1) (stageVerify m n w s2) := by
  rw [eraseCred_eq_iff] at h
  obtain ⟨h1, h2, h3, h4, h5⟩ := h
  cases hrs : w.resultScreenshot with
  | error e =>
    simp [stageVerify, hrs, StepRel, raiseStep, eraseCred_eq_iff,
      h1, h2, h3, h4, h5]
  | ok uu =>
    cases hcls : classify_success w.pageSource w.finalUrl <;>
      simp [stageVerify, hrs, hcls, StepRel, retStep, eraseCred_eq_iff,
        h1, h2, h3, h4, h5]

theorem browserPhase_rel (u1 p1 u2 p2 ts m n : String) (w : World)
    {s1 s2 : RunState} (h : eraseCred s1 = eraseCred s2) :
    StepRel (browserPhase u1 p1 ts m n w s1) (browserPhase u2 p2 ts m n w s2) := by
  unfold browserPhase
  refine seqStep_rel (stageStart_rel w h) fun a b hab => ?_
  refine seqStep_rel (stageHide_rel w hab) fun a b hab => ?_
  refine seqStep_rel (stageNavigate_rel w hab) fun a b hab => ?_
  refine seqStep_rel (stageClickOAuth_rel w hab) fun a b hab => ?_
  refine seqStep_rel (stageFillCreds_rel u1 p1 u2 p2 w hab) fun a b hab => ?_
  refine seqStep_rel (stage2FA_rel ts m n w hab) fun a b hab => ?_
  refine seqStep_rel (stageAuthorize_rel w hab) fun a b hab => ?_
  exact stageVerify_rel m n w hab

theorem errWrap_rel (m n e : String) {t1 t2 : RunState}
    (h : eraseCred t1 = eraseCred t2) :
    eraseCred (errWrap t1 m n e) = eraseCred (errWrap t2 m n e) := by
  rw [eraseCred_eq_iff] at h
  obtain ⟨h1, h2, h3, h4, h5⟩ := h
  simp only [errWrap]
  split <;> split <;>
    simp_all [eraseCred_eq_iff]

/-- C10: for two executions identical except in `GH_PASSWORD` (both
non-empty after stripping), the observable result — the returned boolean
and in particular every notification text passed to `send_tg_message` — is
identical, so the password never influences (and never occurs in) any
outbound message; and executions identical except in `GH_USERNAME` are
observably identical whenever `mask_account` gives the same masked form
(and the emptiness checks agree), so the account reaches the messages only
in masked form. -/
theorem run_login_password_noninterference :
    (∀ eu ep1 ep2 es (w : World),
      getenvStrip ep1 ≠ "" → getenvStrip ep2 ≠ "" →
      obsResult (run_login eu ep1 es w) = obsResult (run_login eu ep2 es w)) ∧
    (∀ eu1 eu2 ep es (w : World),
      (getenvStrip eu1 = "" ↔ getenvStrip eu2 = "") →
      mask_account (getenvStrip eu1) = mask_account (getenvStrip eu2) →
      obsResult (run_login eu1 ep es w) = obsResult (run_login eu2 ep es w)) := by
  constructor
  · intro eu ep1 ep2 es w hp1 hp2
    rw [run_login, run_login]
    rcases hm : mask_account (getenvStrip eu) with - | m
    · rfl
    · simp only
      by_cases hu : getenvStrip eu = ""
      · rw [if_pos (Or.inl hu), if_pos (Or.inl hu)]
      · rw [if_neg (by simp [hu, hp1]), if_neg (by simp [hu, hp2])]
        rcases hch : find_chrome w.pathExists with - | cp
        · rfl
        · have hrel := browserPhase_rel (getenvStrip eu) (getenvStrip ep1)
            (getenvStrip eu) (getenvStrip ep2) (getenvStrip es) m w.nowTime w
            (rfl : eraseCred initState = eraseCred initState)
          rcases hb1 : browserPhase (getenvStrip eu) (getenvStrip ep1)
              (getenvStrip es) m w.nowTime w initState with ⟨t1, o1⟩
          rcases hb2 : browserPhase (getenvStrip eu) (getenvStrip ep2)
              (getenvStrip es) m w.nowTime w initState with ⟨t2, o2⟩
          rw [hb1, hb2] at hrel
          obtain ⟨he, ho⟩ := hrel
          simp only at he ho
          subst ho
          cases o1 with
          | error e => simp [obsResult, Except.map, errWrap_rel m w.nowTime e he]
          | ok ob => cases ob <;> simp [obsResult, Except.map, he]
  · intro eu1 eu2 ep es w hiff hmask
    rcases hm1 : mask_account (getenvStrip eu1) with - | m
    · have hm2 : mask_account (getenvStrip eu2) = none := by
        rw [← hmask, hm1]
      simp only [run_login, hm1, hm2]
    · have hm2 : mask_account (getenvStrip eu2) = some m := by
        rw [← hmask, hm1]
      simp only [run_login, hm1, hm2]
      by_cases hu1 : getenvStrip eu1 = ""
      · rw [if_pos (Or.inl hu1), if_pos (Or.inl (hiff.mp hu1))]
      · have hu2 : ¬ getenvStrip eu2 = "" := fun hx => hu1 (hiff.mpr hx)
        by_cases hp : getenvStrip ep = ""
        · rw [if_pos (Or.inr hp), if_pos (Or.inr hp)]
        · rw [if_neg (by simp [hu1, hp]), if_neg (by simp [hu2, hp])]
          rcases hch : find_chrome w.pathExists with - | cp
          · rfl
          · have hrel := browserPhase_rel (getenvStrip eu1) (getenvStrip ep)
              (getenvStrip eu2) (getenvStrip ep) (getenvStrip es) m w.nowTime w
              (rfl : eraseCred initState = eraseCred initState)
            rcases hb1 : browserPhase (getenvStrip eu1) (getenvStrip ep)
                (getenvStrip es) m w.nowTime w initState with ⟨t1, o1⟩
            rcases hb2 : browserPhase (getenvStrip eu2) (getenvStrip ep)
                (getenvStrip es) m w.nowTime w initState with ⟨t2, o2⟩
            rw [hb1, hb2] at hrel
            obtain ⟨he, ho⟩ := hrel
            simp only at he ho
            subst ho
            cases o1 with
            | error e => simp [obsResult, Except.map, errWrap_rel m w.nowTime e he]
            | ok ob => cases ob <;> simp [obsResult, Except.map, he]

/-- C10 witness: two full runs differing only in the password have the same
observable result. -/
theorem run_login_password_noninterference_witness :
    obsResult (run_login (some "u@e.com") (some "pw1") (some "S") wFull) =
      obsResult (run_login (some "u@e.com") (some "pw2") (some "S") wFull) :=
  run_login_password_noninterference.1 (some "u@e.com") (some "pw1")
    (some "pw2") (some "S") wFull (by decide) (by decide)

end ClawCloud
